import Mathlib

/-
Shallow embedding of the megaorm-builder core: the Condition grammar builder
(src/sql/Condition.ts), the Insert builder (src/unnamed/part_000), the Update
builder (src/unnamed/part_001), the Delete builder (src/sql/Delete.ts), and the
abstract Query contract (src/sql/Query.ts).  JS strings are Lean Strings, JS
numbers are Lean Ints (all claim-relevant code treats them opaquely), bound
values are an inductive, thrown QueryErrors are modelled with Except String.
-/

namespace MegaOrmBuilder

/-- Scalar bound value: a JS string or number (the only types the builders
accept for binding, besides null). -/
inductive Val where
  | str (s : String)
  | num (n : Int)
deriving DecidableEq, Repr

/-- Value-sink entry for Insert/Update row data: null, string or number. -/
inductive SqlVal where
  | null
  | str (s : String)
  | num (n : Int)
deriving DecidableEq, Repr

/-- Coercion of a scalar into a sink entry. -/
def Val.toSql : Val → SqlVal
  | .str s => .str s
  | .num n => .num n

/-- True for non-null sink entries; mirrors the `(v) => v !== null` filters. -/
def SqlVal.notNull : SqlVal → Bool
  | .null => false
  | .str _ => true
  | .num _ => true

/-- Driver kind of the injected connection (used only for dialect fragments). -/
inductive Driver where
  | mysql
  | postgresql
  | sqlite
deriving DecidableEq, Repr

/-- Mirrors the `@megaorm/test` helper `isFullStr`: a non-empty string. -/
def isFullStrB (s : String) : Bool := !s.isEmpty

/-- isFullStr on a scalar value (strings only). -/
def isFullStrVal : Val → Bool
  | .str s => isFullStrB s
  | .num _ => false

/-- Mirrors `isNum` on a scalar value. -/
def isNumVal : Val → Bool
  | .str _ => false
  | .num _ => true

/-- Scalar accepted by the comparison methods: `isFullStr(value) || isNum(value)`. -/
def scalarOk (v : Val) : Bool := isFullStrVal v || isNumVal v

/-- Number of placeholder characters in a rendered SQL string. -/
def countQ (s : String) : Nat := s.toList.countP (fun c => c = '?')

/-- Mirrors JS `array.join('')` on the token stack. -/
def joinAll (l : List String) : String := l.foldl (· ++ ·) ""

/-- Mirrors JS `array.join(sep)`. -/
def joinSep (sep : String) : List String → String
  | [] => ""
  | [x] => x
  | x :: y :: xs => x ++ sep ++ joinSep sep (y :: xs)

/-- Mirrors JS `String.prototype.trim()`: strip whitespace at both ends. -/
def jsTrim (s : String) : String :=
  String.mk (((s.toList.dropWhile Char.isWhitespace).reverse.dropWhile
    Char.isWhitespace).reverse)

/-- Mirrors JS `String.prototype.endsWith` over the character list. -/
def jsEndsWith (s p : String) : Bool := p.toList.isSuffixOf s.toList

/-- Mirrors JS `String.prototype.startsWith` over the character list. -/
def jsStartsWith (s p : String) : Bool := p.toList.isPrefixOf s.toList

/-- Does the pattern p, preceded by optional whitespace, start here?  This is
the building block for the regex checks of Condition.build. -/
def wsThen (p : String) (cs : List Char) : Bool :=
  p.toList.isPrefixOf (cs.dropWhile Char.isWhitespace)

/-- Does f hold on some suffix of the list?  Models an unanchored regex search. -/
def anySuffix (f : List Char → Bool) : List Char → Bool
  | [] => f []
  | c :: cs => f (c :: cs) || anySuffix f cs

/-- Match of the regex piece at one position: an opening parenthesis followed
(after optional whitespace) by AND or OR. -/
def parenThenOpAt : List Char → Bool
  | '(' :: rest => wsThen "AND" rest || wsThen "OR" rest
  | _ => false

/-- Mirrors the test of the first regex in Condition.build. -/
def hasParenThenOp (s : String) : Bool := anySuffix parenThenOpAt s.toList

/-- Match at one position: AND or OR followed by a closing parenthesis. -/
def opThenCloseAt (cs : List Char) : Bool :=
  ("AND".toList.isPrefixOf cs && wsThen ")" (cs.drop 3)) ||
  ("OR".toList.isPrefixOf cs && wsThen ")" (cs.drop 2))

/-- Mirrors the second regex in Condition.build. -/
def hasOpThenClose (s : String) : Bool := anySuffix opThenCloseAt s.toList

/-- Match at one position of the code's consecutive-operator regex
`AND\s*AND|OR\s*OR`: note it only pairs an operator with ITSELF. -/
def sameOpTwiceAt (cs : List Char) : Bool :=
  ("AND".toList.isPrefixOf cs && wsThen "AND" (cs.drop 3)) ||
  ("OR".toList.isPrefixOf cs && wsThen "OR" (cs.drop 2))

/-- Mirrors the third regex in Condition.build. -/
def hasSameOpTwice (s : String) : Bool := anySuffix sameOpTwiceAt s.toList

/-- Match at one position: an opening parenthesis directly (modulo whitespace)
closed again. -/
def emptyParensAt : List Char → Bool
  | '(' :: rest => wsThen ")" rest
  | _ => false

/-- Mirrors the fourth regex in Condition.build. -/
def hasEmptyParens (s : String) : Bool := anySuffix emptyParensAt s.toList

/-- Modelled from the spec: the natural reading of the forbidden pattern
"consecutive AND/OR", where ANY logical operator directly follows another
(AND AND, AND OR, OR AND or OR OR).  Used to compare the spec's pattern with
the code's same-operator-only regex. -/
def specConsecutiveAndOr (s : String) : Bool :=
  anySuffix (fun cs =>
    (("AND".toList.isPrefixOf cs) &&
      (wsThen "AND" (cs.drop 3) || wsThen "OR" (cs.drop 3))) ||
    (("OR".toList.isPrefixOf cs) &&
      (wsThen "AND" (cs.drop 2) || wsThen "OR" (cs.drop 2)))) s.toList

deriving instance DecidableEq for Except

/-- State of a Condition instance: the token stack, the one-shot negation
flag, the parenthesis counter and the active column. -/
structure ConditionS where
  stack : List String := []
  negate : Bool := false
  opened : Int := 0
  column : Option String := none
deriving DecidableEq, Repr

/-- The assembled predicate text: `this.stack.join('').trim()`. -/
def condText (c : ConditionS) : String := jsTrim (joinAll c.stack)

/-- Mirrors Condition.build: the depth check and then the seven pattern
checks, in source order, each with its own error message. -/
def buildCond (c : ConditionS) : Except String String :=
  let condition := condText c
  if c.opened ≠ 0 then
    .error "Syntax error: Unmatched parentheses."
  else if hasParenThenOp condition then
    .error "Invalid syntax: AND/OR cannot directly follow an opening parenthesis."
  else if hasOpThenClose condition then
    .error "Invalid syntax: AND/OR cannot directly precede a closing parenthesis."
  else if hasSameOpTwice condition then
    .error "Invalid syntax: Consecutive AND/OR operators found."
  else if hasEmptyParens condition then
    .error "Invalid syntax: Empty parentheses found."
  else if jsEndsWith condition "AND" || jsEndsWith condition "OR" then
    .error "Invalid syntax: Condition cannot end with an operator."
  else if jsStartsWith condition "AND" || jsStartsWith condition "OR" then
    .error "Invalid syntax: Condition cannot start with an operator."
  else if condition.isEmpty then
    .error "Invalid syntax: Condition cannot be empty."
  else
    .ok condition

/-- Dialect fragment for the date part; the source branches on no driver and
always emits `DATE(col)` (the column-validity check is a type check, vacuous
here). -/
def exDate (col : String) : String := "DATE(" ++ col ++ ")"

/-- Dialect fragment for the time part, per driver kind of the connection. -/
def exTime (col : String) (d : Driver) : String :=
  match d with
  | .mysql => "TIME(" ++ col ++ ")"
  | .postgresql => "TO_CHAR(" ++ col ++ ", \x27HH24:MI:SS\x27)"
  | .sqlite => "STRFTIME(\x27%H:%M:%S\x27, " ++ col ++ ")"

/-- Dialect fragment for the year part. -/
def exYear (col : String) (d : Driver) : String :=
  match d with
  | .mysql => "YEAR(" ++ col ++ ")"
  | .postgresql => "EXTRACT(YEAR FROM " ++ col ++ ")"
  | .sqlite => "STRFTIME(\x27%Y\x27, " ++ col ++ ")"

/-- Dialect fragment for the month part. -/
def exMonth (col : String) (d : Driver) : String :=
  match d with
  | .mysql => "MONTH(" ++ col ++ ")"
  | .postgresql => "EXTRACT(MONTH FROM " ++ col ++ ")"
  | .sqlite => "STRFTIME(\x27%m\x27, " ++ col ++ ")"

/-- Dialect fragment for the day part. -/
def exDay (col : String) (d : Driver) : String :=
  match d with
  | .mysql => "DAY(" ++ col ++ ")"
  | .postgresql => "EXTRACT(DAY FROM " ++ col ++ ")"
  | .sqlite => "STRFTIME(\x27%d\x27, " ++ col ++ ")"

/-- Dialect fragment for the hour part. -/
def exHour (col : String) (d : Driver) : String :=
  match d with
  | .mysql => "HOUR(" ++ col ++ ")"
  | .postgresql => "EXTRACT(HOUR FROM " ++ col ++ ")"
  | .sqlite => "STRFTIME(\x27%H\x27, " ++ col ++ ")"

/-- Dialect fragment for the minute part. -/
def exMinute (col : String) (d : Driver) : String :=
  match d with
  | .mysql => "MINUTE(" ++ col ++ ")"
  | .postgresql => "EXTRACT(MINUTE FROM " ++ col ++ ")"
  | .sqlite => "STRFTIME(\x27%M\x27, " ++ col ++ ")"

/-- Dialect fragment for the second part. -/
def exSecond (col : String) (d : Driver) : String :=
  match d with
  | .mysql => "SECOND(" ++ col ++ ")"
  | .postgresql => "EXTRACT(SECOND FROM " ++ col ++ ")"
  | .sqlite => "STRFTIME(\x27%S\x27, " ++ col ++ ")"

/-- Comparison operand: a Reference Marker (`ref(column)`, class Ref) or a
plain scalar. -/
inductive Operand where
  | ref (column : String)
  | val (v : Val)
deriving DecidableEq, Repr

/-- Validity of a between/in operand: a Ref, or `isFullStr(v) || isNum(v)`. -/
def operandOk : Operand → Bool
  | .ref _ => true
  | .val v => scalarOk v

/-- Mirrors `v instanceof Ref ? v.column : '?'`: the text an operand
contributes in place of a placeholder. -/
def opHolder : Operand → String
  | .ref rc => rc
  | .val _ => "?"

/-- The sink contribution of an operand: nothing for a Ref, the scalar itself
otherwise (mirrors the conditional `this.query.values.push`). -/
def opSink : Operand → List SqlVal
  | .ref _ => []
  | .val v => [v.toSql]

/-- A Condition paired with its owning query's Value Sink (the methods push
into `this.query.values`). -/
structure CondCtx where
  cond : ConditionS := {}
  sink : List SqlVal := []
deriving DecidableEq, Repr

/-- The `NOT ` prefix applied when the negation flag is set. -/
def negStr (negate : Bool) : String := if negate then "NOT " else ""

/-- Mirrors Condition.col: requires a non-empty name, sets the active column. -/
def condColS (c : ConditionS) (name : String) : Except String ConditionS :=
  if !isFullStrB name then .error ("Invalid column name: " ++ name)
  else .ok { c with column := some name }

/-- Mirrors Condition.not: sets the negation flag. -/
def condNotS (c : ConditionS) : ConditionS := { c with negate := true }

/-- Mirrors Condition.open: pushes a parenthesis and bumps the depth. -/
def condOpenS (c : ConditionS) : ConditionS :=
  { c with stack := c.stack ++ ["("], opened := c.opened + 1 }

/-- Mirrors Condition.close: pushes a parenthesis and drops the depth. -/
def condCloseS (c : ConditionS) : ConditionS :=
  { c with stack := c.stack ++ [")"], opened := c.opened - 1 }

/-- Mirrors Condition.paren: open at depth 0, close otherwise. -/
def condParenS (c : ConditionS) : ConditionS :=
  if c.opened = 0 then condOpenS c else condCloseS c

/-- Mirrors Condition.and: pushes the operator fragment unconditionally. -/
def condAndS (c : ConditionS) : ConditionS := { c with stack := c.stack ++ [" AND "] }

/-- Mirrors Condition.or: pushes the operator fragment unconditionally. -/
def condOrS (c : ConditionS) : ConditionS := { c with stack := c.stack ++ [" OR "] }

/-- Mirrors Condition.raw: validates the text and every value, appends the
values to the sink and the text to the stack (the negation flag is untouched). -/
def condRaw (ctx : CondCtx) (condition : String) (values : List Val) :
    Except String CondCtx :=
  if !isFullStrB condition then .error ("Invalid condition: " ++ condition)
  else if !(values.all (fun v => isFullStrVal v || isNumVal v)) then
    .error "Invalid condition value"
  else
    .ok { cond := { ctx.cond with stack := ctx.cond.stack ++ [condition] },
          sink := ctx.sink ++ values.map Val.toSql }

/-- Common shape of every terminal comparison taking one operand (equal,
lessThan, ..., like, inDate ... inSecond): require the active column, validate
the operand, render `lhs(column) sign placeholder` with the optional NOT
prefix, clear the negation flag, and bind the scalar (a Ref splices its raw
text and binds nothing). -/
def condPush (ctx : CondCtx) (lhs : String → String) (sign : String)
    (value : Operand) (valid : Val → Bool) : Except String CondCtx :=
  match ctx.cond.column with
  | none => .error "Invalid column: undefined"
  | some column =>
    if !isFullStrB column then .error ("Invalid column: " ++ column)
    else
      match value with
      | .ref rc =>
        .ok { ctx with cond := { ctx.cond with
                stack := ctx.cond.stack ++ [negStr ctx.cond.negate ++ lhs column ++ sign ++ rc],
                negate := false } }
      | .val v =>
        if valid v then
          .ok { cond := { ctx.cond with
                  stack := ctx.cond.stack ++ [negStr ctx.cond.negate ++ lhs column ++ sign ++ "?"],
                  negate := false },
                sink := ctx.sink ++ [v.toSql] }
        else .error "Invalid value"

/-- Mirrors Condition.equal. -/
def condEqual (ctx : CondCtx) (value : Operand) : Except String CondCtx :=
  condPush ctx (fun c => c) " = " value scalarOk

/-- Mirrors Condition.lessThan. -/
def condLessThan (ctx : CondCtx) (value : Operand) : Except String CondCtx :=
  condPush ctx (fun c => c) " < " value scalarOk

/-- Mirrors Condition.lessThanOrEqual. -/
def condLessThanOrEqual (ctx : CondCtx) (value : Operand) : Except String CondCtx :=
  condPush ctx (fun c => c) " <= " value scalarOk

/-- Mirrors Condition.greaterThan. -/
def condGreaterThan (ctx : CondCtx) (value : Operand) : Except String CondCtx :=
  condPush ctx (fun c => c) " > " value scalarOk

/-- Mirrors Condition.greaterThanOrEqual. -/
def condGreaterThanOrEqual (ctx : CondCtx) (value : Operand) : Except String CondCtx :=
  condPush ctx (fun c => c) " >= " value scalarOk

/-- Mirrors Condition.like (the scalar must be a non-empty string). -/
def condLike (ctx : CondCtx) (value : Operand) : Except String CondCtx :=
  condPush ctx (fun c => c) " LIKE " value isFullStrVal

/-- Mirrors Condition.inDate (compares the extracted date part). -/
def condInDate (ctx : CondCtx) (value : Operand) : Except String CondCtx :=
  condPush ctx exDate " = " value isFullStrVal

/-- Mirrors Condition.inTime. -/
def condInTime (d : Driver) (ctx : CondCtx) (value : Operand) : Except String CondCtx :=
  condPush ctx (fun c => exTime c d) " = " value isFullStrVal

/-- Mirrors Condition.inYear (`isInt(year) && year > 0`). -/
def condInYear (d : Driver) (ctx : CondCtx) (value : Operand) : Except String CondCtx :=
  condPush ctx (fun c => exYear c d) " = " value
    (fun v => match v with | .num n => decide (0 < n) | .str _ => false)

/-- Mirrors Condition.inMonth (month between 1 and 12). -/
def condInMonth (d : Driver) (ctx : CondCtx) (value : Operand) : Except String CondCtx :=
  condPush ctx (fun c => exMonth c d) " = " value
    (fun v => match v with | .num n => decide (1 ≤ n ∧ n ≤ 12) | .str _ => false)

/-- Mirrors Condition.inDay (day between 1 and 31). -/
def condInDay (d : Driver) (ctx : CondCtx) (value : Operand) : Except String CondCtx :=
  condPush ctx (fun c => exDay c d) " = " value
    (fun v => match v with | .num n => decide (1 ≤ n ∧ n ≤ 31) | .str _ => false)

/-- Mirrors Condition.inHour (hour between 0 and 23). -/
def condInHour (d : Driver) (ctx : CondCtx) (value : Operand) : Except String CondCtx :=
  condPush ctx (fun c => exHour c d) " = " value
    (fun v => match v with | .num n => decide (0 ≤ n ∧ n ≤ 23) | .str _ => false)

/-- Mirrors Condition.inMinute (minute between 0 and 59). -/
def condInMinute (d : Driver) (ctx : CondCtx) (value : Operand) : Except String CondCtx :=
  condPush ctx (fun c => exMinute c d) " = " value
    (fun v => match v with | .num n => decide (0 ≤ n ∧ n ≤ 59) | .str _ => false)

/-- Mirrors Condition.inSecond (second between 0 and 59). -/
def condInSecond (d : Driver) (ctx : CondCtx) (value : Operand) : Except String CondCtx :=
  condPush ctx (fun c => exSecond c d) " = " value
    (fun v => match v with | .num n => decide (0 ≤ n ∧ n ≤ 59) | .str _ => false)

/-- Mirrors Condition.between: two operands, each a Ref or scalar; scalars are
bound in order (start then end). -/
def condBetween (ctx : CondCtx) (start stop : Operand) : Except String CondCtx :=
  match ctx.cond.column with
  | none => .error "Invalid column: undefined"
  | some column =>
    if !isFullStrB column then .error ("Invalid column: " ++ column)
    else if !(operandOk start) then .error "Invalid start value"
    else if !(operandOk stop) then .error "Invalid end value"
    else
      let condition := negStr ctx.cond.negate ++ column ++ " BETWEEN " ++
        opHolder start ++ " AND " ++ opHolder stop
      .ok { cond := { ctx.cond with
              stack := ctx.cond.stack ++ [condition],
              negate := false },
            sink := ctx.sink ++ opSink start ++ opSink stop }

/-- Mirrors Condition.in: non-empty operand list; each Ref splices its text,
each scalar renders a placeholder and is bound, in order. -/
def condIn (ctx : CondCtx) (values : List Operand) : Except String CondCtx :=
  match ctx.cond.column with
  | none => .error "Invalid column: undefined"
  | some column =>
    if !isFullStrB column then .error ("Invalid column: " ++ column)
    else if values.isEmpty then .error "Values array cannot be empty for IN clause"
    else if !(values.all operandOk) then .error "Invalid value"
    else
      let placeholders := joinSep ", " (values.map opHolder)
      let condition := negStr ctx.cond.negate ++ column ++ " IN (" ++ placeholders ++ ")"
      .ok { cond := { ctx.cond with
              stack := ctx.cond.stack ++ [condition],
              negate := false },
            sink := ctx.sink ++ (values.map opSink).flatten }

/-- Mirrors Condition.isNull. -/
def condIsNull (ctx : CondCtx) : Except String CondCtx :=
  match ctx.cond.column with
  | none => .error "Invalid column: undefined"
  | some column =>
    if !isFullStrB column then .error ("Invalid column: " ++ column)
    else
      .ok { ctx with cond := { ctx.cond with
              stack := ctx.cond.stack ++ [negStr ctx.cond.negate ++ column ++ " IS NULL"],
              negate := false } }

/-- One public Condition call, as issued inside a where/having callback or
directly on the owning builder (the subquery-producing variants live in the
absent Select source and are out of scope of the embedding). -/
inductive COp where
  | ccol (name : String)
  | cequal (value : Operand)
  | clessThan (value : Operand)
  | clessThanOrEqual (value : Operand)
  | cgreaterThan (value : Operand)
  | cgreaterThanOrEqual (value : Operand)
  | clike (value : Operand)
  | cbetween (start stop : Operand)
  | cin (values : List Operand)
  | cinDate (value : Operand)
  | cinTime (value : Operand)
  | cinYear (value : Operand)
  | cinMonth (value : Operand)
  | cinDay (value : Operand)
  | cinHour (value : Operand)
  | cinMinute (value : Operand)
  | cinSecond (value : Operand)
  | cisNull
  | cnot
  | cand
  | cor
  | copen
  | cclose
  | cparen
  | craw (condition : String) (values : List Val)
deriving DecidableEq, Repr

/-- Dispatch of one Condition call on the condition/sink pair; d is the driver
kind of the injected connection. -/
def cstep (d : Driver) (ctx : CondCtx) : COp → Except String CondCtx
  | .ccol n =>
    match condColS ctx.cond n with
    | .ok c => .ok { ctx with cond := c }
    | .error e => .error e
  | .cequal v => condEqual ctx v
  | .clessThan v => condLessThan ctx v
  | .clessThanOrEqual v => condLessThanOrEqual ctx v
  | .cgreaterThan v => condGreaterThan ctx v
  | .cgreaterThanOrEqual v => condGreaterThanOrEqual ctx v
  | .clike v => condLike ctx v
  | .cbetween a b => condBetween ctx a b
  | .cin vs => condIn ctx vs
  | .cinDate v => condInDate ctx v
  | .cinTime v => condInTime d ctx v
  | .cinYear v => condInYear d ctx v
  | .cinMonth v => condInMonth d ctx v
  | .cinDay v => condInDay d ctx v
  | .cinHour v => condInHour d ctx v
  | .cinMinute v => condInMinute d ctx v
  | .cinSecond v => condInSecond d ctx v
  | .cisNull => condIsNull ctx
  | .cnot => .ok { ctx with cond := condNotS ctx.cond }
  | .cand => .ok { ctx with cond := condAndS ctx.cond }
  | .cor => .ok { ctx with cond := condOrS ctx.cond }
  | .copen => .ok { ctx with cond := condOpenS ctx.cond }
  | .cclose => .ok { ctx with cond := condCloseS ctx.cond }
  | .cparen => .ok { ctx with cond := condParenS ctx.cond }
  | .craw text vals => condRaw ctx text vals

/-- Run a sequence of Condition calls (errors abort, as thrown QueryErrors do). -/
def crun (d : Driver) (ctx : CondCtx) : List COp → Except String CondCtx
  | [] => .ok ctx
  | op :: ops =>
    match cstep d ctx op with
    | .ok ctx2 => crun d ctx2 ops
    | .error e => .error e

/-- State of an Insert builder (class Insert extends Query): the target table,
the inferred column list, the PostgreSQL returning list, the inherited Value
Sink (one row-vector per row) and the inherited cached query string. -/
structure InsertS where
  table : Option String := none
  columns : Option (List String) := none
  returnings : Option (List String) := none
  values : List (List SqlVal) := []
  query : Option String := none
deriving DecidableEq, Repr

/-- A freshly constructed Insert. -/
def insertInit : InsertS := {}

/-- Mirrors Insert.reset: clears table, columns, values and the cached query
(the returnings field is NOT touched by the source). -/
def insertReset (s : InsertS) : InsertS :=
  { s with table := none, columns := none, values := [], query := none }

/-- Mirrors Insert.into. -/
def insertInto (s : InsertS) (table : String) : Except String InsertS :=
  if !isFullStrB table then .error ("Invalid INSERT table: " ++ table)
  else .ok { s with table := some table }

/-- Mirrors Insert.returning (`isArrOfStr`: a non-empty array of strings). -/
def insertReturning (s : InsertS) (columns : List String) : Except String InsertS :=
  if columns.isEmpty then .error "Invalid RETURNING columns"
  else .ok { s with returnings := some columns }

/-- Mirrors Insert.row.  A JS row object is an association list with its keys
in insertion order; `Object.keys` is the fst projection and `Object.values`
the snd projection (value-type validation is vacuous over SqlVal). -/
def insertRow (s : InsertS) (row : List (String × SqlVal)) : Except String InsertS :=
  match s.columns with
  | some cols =>
    let columns := row.map Prod.fst
    if cols.length ≠ columns.length then .error "Invalid INSERT row"
    else if !(cols.all (fun column => columns.contains column)) then
      .error "Invalid INSERT row"
    else .ok { s with values := s.values ++ [row.map Prod.snd] }
  | none =>
    let columns := row.map Prod.fst
    if columns.isEmpty then .error "Empty INSERT row"
    else .ok { s with columns := some columns, values := s.values ++ [row.map Prod.snd] }

/-- Rendering of one row cell: the literal NULL for a null, a placeholder
otherwise. -/
def nullToken (v : SqlVal) : String :=
  match v with
  | .null => "NULL"
  | _ => "?"

/-- Mirrors Insert.build: validates table/columns/values, renders the INSERT
statement with nulls inlined as NULL, and REPLACES the sink rows by their
null-filtered versions before returning (the returned pair is the rendered
text together with the mutated state). -/
def insertBuild (s : InsertS) : Except String (String × InsertS) :=
  match s.table with
  | none => .error "Invalid INSERT table: undefined"
  | some table =>
    if !isFullStrB table then .error ("Invalid INSERT table: " ++ table)
    else
      match s.columns with
      | none => .error "Invalid INSERT columns"
      | some cols =>
        if cols.isEmpty then .error "Invalid INSERT columns"
        else if s.values.isEmpty then .error "Invalid INSERT values"
        else
          let columns := joinSep ", " cols
          let valuesText := joinSep ", "
            (s.values.map (fun r => "(" ++ joinSep ", " (r.map nullToken) ++ ")"))
          let returningsText :=
            match s.returnings with
            | some rs => " RETURNING " ++ joinSep ", " rs
            | none => ""
          .ok ("INSERT INTO " ++ table ++ " (" ++ columns ++ ") VALUES " ++
                valuesText ++ returningsText ++ ";",
               { s with values := s.values.map (fun row => row.filter SqlVal.notNull) })

/-- Mirrors Query.exec for Insert: `connection.query(this.get.query(),
this.get.values().flat())` — get.query() runs build() first (the cached query
is never set by Insert), then the (now null-filtered) rows are flattened. -/
def insertExec (s : InsertS) : Except String (String × List SqlVal) :=
  match s.query with
  | some q => .ok (q, s.values.flatten)
  | none =>
    match insertBuild s with
    | .ok (q, s2) => .ok (q, s2.values.flatten)
    | .error e => .error e

/-- State of an Update builder: its state record (table, columns, condition)
plus the inherited Value Sink and cached query. -/
structure UpdateS where
  table : Option String := none
  columns : List String := []
  condition : Option ConditionS := none
  values : List SqlVal := []
  query : Option String := none
deriving DecidableEq, Repr

/-- A freshly constructed Update. -/
def updateInit : UpdateS := {}

/-- Mirrors Update.reset. -/
def updateReset (_s : UpdateS) : UpdateS := {}

/-- Mirrors Update.table. -/
def updateTable (s : UpdateS) (name : String) : Except String UpdateS :=
  if !isFullStrB name then .error ("Invalid UPDATE table: " ++ name)
  else .ok { s with table := some name }

/-- Mirrors Update.set: REPLACES the column list with the row's keys and the
whole Value Sink with the row's values (value-type validation is vacuous
over SqlVal). -/
def updateSet (s : UpdateS) (row : List (String × SqlVal)) : UpdateS :=
  { s with columns := row.map Prod.fst, values := row.map Prod.snd }

/-- Mirrors Update.where: lazily creates the Condition, then runs the
callback's calls against it, with the builder's sink as the owning sink. -/
def updateWhere (d : Driver) (s : UpdateS) (ops : List COp) : Except String UpdateS :=
  let cond := s.condition.getD {}
  match crun d { cond := cond, sink := s.values } ops with
  | .ok ctx => .ok { s with condition := some ctx.cond, values := ctx.sink }
  | .error e => .error e

/-- The SET fragments: `columns.map((c, i) => values[i] === null ? c = NULL :
c = ?)`, walking the columns and reading the sink positionally. -/
def setFragments : List String → List SqlVal → List String
  | [], _ => []
  | c :: cs, [] => (c ++ " = ?") :: setFragments cs []
  | c :: cs, v :: vs =>
    (match v with
     | .null => c ++ " = NULL"
     | _ => c ++ " = ?") :: setFragments cs vs

/-- Mirrors Update.build: validates table/columns/values/condition, renders
the SET list from the columns and the positional sink values, filters nulls
out of the sink, and renders the WHERE from the Condition's build. -/
def updateBuild (s : UpdateS) : Except String (String × UpdateS) :=
  match s.table with
  | none => .error "Invalid UPDATE table: undefined"
  | some table =>
    if !isFullStrB table then .error ("Invalid UPDATE table: " ++ table)
    else if s.columns.isEmpty then .error "Invalid UPDATE columns"
    else if s.values.isEmpty then .error "Invalid UPDATE values"
    else
      match s.condition with
      | none => .error "UPDATE condition is required"
      | some cond =>
        let columns := joinSep ", " (setFragments s.columns s.values)
        match buildCond cond with
        | .ok ct =>
          .ok ("UPDATE " ++ table ++ " SET " ++ columns ++ " WHERE " ++ ct ++ ";",
               { s with values := s.values.filter SqlVal.notNull })
        | .error e => .error e

/-- Mirrors Query.exec for Update (flat() on an already flat sink). -/
def updateExec (s : UpdateS) : Except String (String × List SqlVal) :=
  match s.query with
  | some q => .ok (q, s.values)
  | none =>
    match updateBuild s with
    | .ok (q, s2) => .ok (q, s2.values)
    | .error e => .error e

/-- State of a Delete builder: table and condition plus the inherited sink and
cached query. -/
structure DeleteS where
  table : Option String := none
  condition : Option ConditionS := none
  values : List SqlVal := []
  query : Option String := none
deriving DecidableEq, Repr

/-- A freshly constructed Delete. -/
def deleteInit : DeleteS := {}

/-- Mirrors Delete.reset. -/
def deleteReset (_s : DeleteS) : DeleteS := {}

/-- Mirrors Delete.from. -/
def deleteFrom (s : DeleteS) (table : String) : Except String DeleteS :=
  if !isFullStrB table then .error ("Invalid DELETE table: " ++ table)
  else .ok { s with table := some table }

/-- Mirrors Delete.where: lazily creates the Condition, then runs the
callback's calls against it. -/
def deleteWhere (d : Driver) (s : DeleteS) (ops : List COp) : Except String DeleteS :=
  let cond := s.condition.getD {}
  match crun d { cond := cond, sink := s.values } ops with
  | .ok ctx => .ok { s with condition := some ctx.cond, values := ctx.sink }
  | .error e => .error e

/-- Mirrors Delete.build (pure: Delete mutates nothing while rendering). -/
def deleteBuild (s : DeleteS) : Except String String :=
  match s.table with
  | none => .error "Invalid DELETE table: undefined"
  | some table =>
    if !isFullStrB table then .error ("Invalid DELETE table: " ++ table)
    else
      match s.condition with
      | none => .error "DELETE condition is required"
      | some cond =>
        match buildCond cond with
        | .ok ct => .ok ("DELETE FROM " ++ table ++ " WHERE " ++ ct ++ ";")
        | .error e => .error e

/-- Mirrors Query.exec for Delete. -/
def deleteExec (s : DeleteS) : Except String (String × List SqlVal) :=
  match s.query with
  | some q => .ok (q, s.values)
  | none =>
    match deleteBuild s with
    | .ok q => .ok (q, s.values)
    | .error e => .error e

/-- Result bundle of paginate: the page numbers, counts, and the offset used
by the limit+offset read. -/
structure PageBundle where
  current : Nat
  prev : Option Nat
  next : Option Nat
  items : Nat
  totalItems : Nat
  totalPages : Nat
  offset : Nat
deriving DecidableEq, Repr

/-- Modelled from the spec: page normalization of Select.paginate (Select.ts
is not under src/).  A `none` input stands for an absent or non-integer
argument; "page<1 or non-integer → 1". -/
def normalizePage (page : Option Int) : Nat :=
  match page with
  | some p => if p < 1 then 1 else p.toNat
  | none => 1

/-- Modelled from the spec: items normalization of Select.paginate; "items<1
or non-integer or absent → 10". -/
def normalizeItems (items : Option Int) : Nat :=
  match items with
  | some i => if i < 1 then 10 else i.toNat
  | none => 10

/-- Modelled from the spec: Select.paginate (Select.ts is not under src/).
Normalizes the inputs, computes the offset as `(page-1)*items`, and returns
the bundle with `prev` omitted on page 1, `next` omitted when no further page
exists, and the total page count `ceil(total/items)`. -/
def paginate (page items : Option Int) (total : Nat) : PageBundle :=
  let p := normalizePage page
  let i := normalizeItems items
  let pages := (total + i - 1) / i
  { current := p
    prev := if p = 1 then none else some (p - 1)
    next := if p < pages then some (p + 1) else none
    items := i
    totalItems := total
    totalPages := pages
    offset := (p - 1) * i }

/-- A comparison operand that puts no placeholder character into the rendered
text: any scalar (it only reaches the sink), or a Ref whose raw column text is
free of placeholder characters. -/
def cleanOperand : Operand → Bool
  | .ref rc => countQ rc == 0
  | .val _ => true

/-- A Condition call that keeps rendered placeholders and sink entries
aligned: identifiers it splices into the SQL are free of placeholder
characters, and raw fragments carry no placeholder and bind no values. -/
def cleanOp : COp → Bool
  | .ccol n => countQ n == 0
  | .cequal v | .clessThan v | .clessThanOrEqual v | .cgreaterThan v
  | .cgreaterThanOrEqual v | .clike v | .cinDate v | .cinTime v | .cinYear v
  | .cinMonth v | .cinDay v | .cinHour v | .cinMinute v | .cinSecond v =>
    cleanOperand v
  | .cbetween a b => cleanOperand a && cleanOperand b
  | .cin vs => vs.all cleanOperand
  | .craw text vals => (countQ text == 0) && vals.isEmpty
  | .cisNull | .cnot | .cand | .cor | .copen | .cclose | .cparen => true

/-- The active column, when set, is free of placeholder characters. -/
def cleanCol : Option String → Prop
  | none => True
  | some c => countQ c = 0

theorem countQ_append (a b : String) : countQ (a ++ b) = countQ a + countQ b := by
  simp [countQ, String.toList, String.data_append, List.countP_append]

theorem countQ_foldl (l : List String) (a : String) :
    countQ (l.foldl (· ++ ·) a) = countQ a + (l.map countQ).sum := by
  induction l generalizing a with
  | nil => simp
  | cons x xs ih => simp [List.foldl_cons, ih, countQ_append]; omega

theorem countQ_joinAll (l : List String) : countQ (joinAll l) = (l.map countQ).sum := by
  have h : countQ "" = 0 := rfl
  simp [joinAll, countQ_foldl, h]

theorem joinAll_snoc (l : List String) (x : String) :
    joinAll (l ++ [x]) = joinAll l ++ x := by
  simp [joinAll, List.foldl_append]

theorem countP_dropWhile (p q : Char → Bool) (h : ∀ c, q c = true → p c = false)
    (l : List Char) : (l.dropWhile q).countP p = l.countP p := by
  induction l with
  | nil => rfl
  | cons c cs ih =>
    rw [List.dropWhile_cons]
    by_cases hc : q c = true
    · simp [hc, ih, List.countP_cons, h c hc]
    · simp [hc]

theorem ws_not_q (c : Char) (hc : c.isWhitespace = true) :
    (decide (c = '?')) = false := by
  simp only [Char.isWhitespace, Bool.or_eq_true, decide_eq_true_eq] at hc
  rcases hc with ((h | h) | h) | h <;> subst h <;> decide

theorem countQ_jsTrim (s : String) : countQ (jsTrim s) = countQ s := by
  simp only [jsTrim, countQ]
  show (((s.toList.dropWhile Char.isWhitespace).reverse.dropWhile
    Char.isWhitespace).reverse).countP (fun c => c = '?') = _
  rw [List.countP_reverse, countP_dropWhile _ _ ws_not_q, List.countP_reverse,
    countP_dropWhile _ _ ws_not_q]

theorem countQ_negStr (b : Bool) : countQ (negStr b) = 0 := by cases b <;> rfl

theorem countQ_wrap (a b : String) (ha : countQ a = 0) (hb : countQ b = 0)
    (x : String) : countQ (a ++ x ++ b) = countQ x := by
  rw [countQ_append, countQ_append, ha, hb]
  omega

theorem countQ_exDate (c : String) : countQ (exDate c) = countQ c :=
  countQ_wrap "DATE(" ")" rfl rfl c

theorem countQ_exTime (c : String) (d : Driver) : countQ (exTime c d) = countQ c := by
  cases d
  · exact countQ_wrap "TIME(" ")" rfl rfl c
  · exact countQ_wrap "TO_CHAR(" ", \x27HH24:MI:SS\x27)" rfl rfl c
  · exact countQ_wrap "STRFTIME(\x27%H:%M:%S\x27, " ")" rfl rfl c

theorem countQ_exYear (c : String) (d : Driver) : countQ (exYear c d) = countQ c := by
  cases d
  · exact countQ_wrap "YEAR(" ")" rfl rfl c
  · exact countQ_wrap "EXTRACT(YEAR FROM " ")" rfl rfl c
  · exact countQ_wrap "STRFTIME(\x27%Y\x27, " ")" rfl rfl c

theorem countQ_exMonth (c : String) (d : Driver) : countQ (exMonth c d) = countQ c := by
  cases d
  · exact countQ_wrap "MONTH(" ")" rfl rfl c
  · exact countQ_wrap "EXTRACT(MONTH FROM " ")" rfl rfl c
  · exact countQ_wrap "STRFTIME(\x27%m\x27, " ")" rfl rfl c

theorem countQ_exDay (c : String) (d : Driver) : countQ (exDay c d) = countQ c := by
  cases d
  · exact countQ_wrap "DAY(" ")" rfl rfl c
  · exact countQ_wrap "EXTRACT(DAY FROM " ")" rfl rfl c
  · exact countQ_wrap "STRFTIME(\x27%d\x27, " ")" rfl rfl c

theorem countQ_exHour (c : String) (d : Driver) : countQ (exHour c d) = countQ c := by
  cases d
  · exact countQ_wrap "HOUR(" ")" rfl rfl c
  · exact countQ_wrap "EXTRACT(HOUR FROM " ")" rfl rfl c
  · exact countQ_wrap "STRFTIME(\x27%H\x27, " ")" rfl rfl c

theorem countQ_exMinute (c : String) (d : Driver) : countQ (exMinute c d) = countQ c := by
  cases d
  · exact countQ_wrap "MINUTE(" ")" rfl rfl c
  · exact countQ_wrap "EXTRACT(MINUTE FROM " ")" rfl rfl c
  · exact countQ_wrap "STRFTIME(\x27%M\x27, " ")" rfl rfl c

theorem countQ_exSecond (c : String) (d : Driver) : countQ (exSecond c d) = countQ c := by
  cases d
  · exact countQ_wrap "SECOND(" ")" rfl rfl c
  · exact countQ_wrap "EXTRACT(SECOND FROM " ")" rfl rfl c
  · exact countQ_wrap "STRFTIME(\x27%S\x27, " ")" rfl rfl c

theorem countQ_joinSep_comma (l : List String) :
    countQ (joinSep ", " l) = (l.map countQ).sum := by
  induction l with
  | nil => rfl
  | cons x xs ih =>
    cases xs with
    | nil => simp [joinSep]
    | cons y ys =>
      have h : countQ ", " = 0 := rfl
      simp only [joinSep] at ih ⊢
      rw [countQ_append, countQ_append, ih]
      simp [h]

theorem Val.notNull_toSql (v : Val) : (Val.toSql v).notNull = true := by
  cases v <;> rfl

theorem condPush_ok {ctx ctx' : CondCtx} {lhs : String → String} {sign : String}
    {value : Operand} {valid : Val → Bool}
    (h : condPush ctx lhs sign value valid = .ok ctx') :
    ∃ column, ctx.cond.column = some column ∧ isFullStrB column = true ∧
      ctx'.cond.column = ctx.cond.column ∧
      ctx'.cond.opened = ctx.cond.opened ∧
      ctx'.cond.negate = false ∧
      ctx'.sink = ctx.sink ++ opSink value ∧
      (valid = valid ∧ ∀ v, value = .val v → valid v = true) ∧
      ctx'.cond.stack = ctx.cond.stack ++
        [negStr ctx.cond.negate ++ lhs column ++ sign ++ opHolder value] := by
  unfold condPush at h
  split at h
  · exact absurd h (by simp)
  · rename_i column hcol
    split at h
    · exact absurd h (by simp)
    · rename_i hfull
      split at h
      · rename_i rc
        injection h with h
        subst h
        exact ⟨column, hcol, by simpa using hfull, rfl, rfl, rfl, by simp [opSink],
          ⟨rfl, by intro v hv; cases hv⟩, by simp [opHolder]⟩
      · rename_i v
        split at h
        · rename_i hvalid
          injection h with h
          subst h
          exact ⟨column, hcol, by simpa using hfull, rfl, rfl, rfl, by simp [opSink],
            ⟨rfl, by intro w hw; cases hw; exact hvalid⟩, by simp [opHolder]⟩
        · exact absurd h (by simp)

theorem condPush_delta {ctx ctx' : CondCtx} {lhs : String → String} {sign : String}
    {value : Operand} {valid : Val → Bool}
    (h : condPush ctx lhs sign value valid = .ok ctx')
    (hlhs : ∀ c, countQ c = 0 → countQ (lhs c) = 0) (hsign : countQ sign = 0)
    (hv : cleanOperand value = true) (hcol : cleanCol ctx.cond.column) :
    countQ (joinAll ctx'.cond.stack) + ctx.sink.length
      = countQ (joinAll ctx.cond.stack) + ctx'.sink.length
    ∧ cleanCol ctx'.cond.column := by
  obtain ⟨column, hc, _, hcol', _, _, hsink, _, hstack⟩ := condPush_ok h
  have hq : countQ column = 0 := by
    rw [hc] at hcol
    exact hcol
  constructor
  · rw [hstack, hsink, joinAll_snoc, countQ_append, countQ_append, countQ_append,
      countQ_append, countQ_negStr, hlhs column hq, hsign, List.length_append]
    cases value with
    | ref rc =>
      have : countQ rc = 0 := by simpa [cleanOperand] using hv
      simp [opHolder, opSink, this]
    | val v =>
      have : countQ "?" = 1 := rfl
      simp [opHolder, opSink, this]
      omega
  · rw [hcol']
    exact hcol

theorem in_count (values : List Operand) (hcl : values.all cleanOperand = true) :
    ((values.map opHolder).map countQ).sum = ((values.map opSink).flatten).length := by
  induction values with
  | nil => rfl
  | cons v vs ih =>
    rw [List.all_cons, Bool.and_eq_true] at hcl
    have ih2 := ih hcl.2
    rw [List.map_map] at ih2
    cases v with
    | ref rc =>
      have h0 : countQ rc = 0 := by simpa [cleanOperand] using hcl.1
      simp [opHolder, opSink, h0, ih2]
    | val w =>
      have h1 : countQ "?" = 1 := rfl
      simp [opHolder, opSink, h1, ih2]
      omega

theorem condBetween_ok {ctx ctx' : CondCtx} {a b : Operand}
    (h : condBetween ctx a b = .ok ctx') :
    ∃ column, ctx.cond.column = some column ∧
      ctx'.cond.column = ctx.cond.column ∧
      ctx'.cond.opened = ctx.cond.opened ∧
      ctx'.cond.negate = false ∧
      ctx'.sink = ctx.sink ++ opSink a ++ opSink b ∧
      ctx'.cond.stack = ctx.cond.stack ++
        [negStr ctx.cond.negate ++ column ++ " BETWEEN " ++
          opHolder a ++ " AND " ++ opHolder b] := by
  unfold condBetween at h
  split at h
  · exact absurd h (by simp)
  · rename_i column hcol
    split at h
    · exact absurd h (by simp)
    · split at h
      · exact absurd h (by simp)
      · split at h
        · exact absurd h (by simp)
        · injection h with h
          subst h
          exact ⟨column, hcol, rfl, rfl, rfl, rfl, rfl⟩

theorem condIn_ok {ctx ctx' : CondCtx} {vs : List Operand}
    (h : condIn ctx vs = .ok ctx') :
    ∃ column, ctx.cond.column = some column ∧
      ctx'.cond.column = ctx.cond.column ∧
      ctx'.cond.opened = ctx.cond.opened ∧
      ctx'.cond.negate = false ∧
      ctx'.sink = ctx.sink ++ (vs.map opSink).flatten ∧
      ctx'.cond.stack = ctx.cond.stack ++
        [negStr ctx.cond.negate ++ column ++ " IN (" ++
          joinSep ", " (vs.map opHolder) ++ ")"] := by
  unfold condIn at h
  split at h
  · exact absurd h (by simp)
  · rename_i column hcol
    split at h
    · exact absurd h (by simp)
    · split at h
      · exact absurd h (by simp)
      · split at h
        · exact absurd h (by simp)
        · injection h with h
          subst h
          exact ⟨column, hcol, rfl, rfl, rfl, rfl, rfl⟩

theorem condIsNull_ok {ctx ctx' : CondCtx} (h : condIsNull ctx = .ok ctx') :
    ∃ column, ctx.cond.column = some column ∧
      ctx'.cond.column = ctx.cond.column ∧
      ctx'.cond.opened = ctx.cond.opened ∧
      ctx'.cond.negate = false ∧
      ctx'.sink = ctx.sink ∧
      ctx'.cond.stack = ctx.cond.stack ++
        [negStr ctx.cond.negate ++ column ++ " IS NULL"] := by
  unfold condIsNull at h
  split at h
  · exact absurd h (by simp)
  · rename_i column hcol
    split at h
    · exact absurd h (by simp)
    · injection h with h
      subst h
      exact ⟨column, hcol, rfl, rfl, rfl, rfl, rfl⟩

theorem condRaw_ok {ctx ctx' : CondCtx} {text : String} {vals : List Val}
    (h : condRaw ctx text vals = .ok ctx') :
    ctx'.cond.column = ctx.cond.column ∧
    ctx'.cond.opened = ctx.cond.opened ∧
    ctx'.cond.negate = ctx.cond.negate ∧
    ctx'.sink = ctx.sink ++ vals.map Val.toSql ∧
    ctx'.cond.stack = ctx.cond.stack ++ [text] := by
  unfold condRaw at h
  split at h
  · exact absurd h (by simp)
  · split at h
    · exact absurd h (by simp)
    · injection h with h
      subst h
      exact ⟨rfl, rfl, rfl, rfl, rfl⟩

theorem condColS_ok {c c' : ConditionS} {n : String} (h : condColS c n = .ok c') :
    isFullStrB n = true ∧ c' = { c with column := some n } := by
  unfold condColS at h
  split at h
  · exact absurd h (by simp)
  · rename_i hn
    injection h with h
    subst h
    exact ⟨by simpa using hn, rfl⟩

theorem cstep_delta {d : Driver} {ctx ctx' : CondCtx} {op : COp}
    (hop : cleanOp op = true) (hcol : cleanCol ctx.cond.column)
    (h : cstep d ctx op = .ok ctx') :
    countQ (joinAll ctx'.cond.stack) + ctx.sink.length
      = countQ (joinAll ctx.cond.stack) + ctx'.sink.length
    ∧ cleanCol ctx'.cond.column := by
  cases op with
  | ccol n =>
    simp only [cstep] at h
    split at h
    · rename_i c hc
      obtain ⟨-, hc'⟩ := condColS_ok hc
      injection h with h
      subst h
      subst hc'
      refine ⟨rfl, ?_⟩
      show countQ n = 0
      simpa [cleanOp] using hop
    · exact absurd h (by simp)
  | cequal v =>
    exact condPush_delta h (fun c hc => hc) rfl (by simpa [cleanOp] using hop) hcol
  | clessThan v =>
    exact condPush_delta h (fun c hc => hc) rfl (by simpa [cleanOp] using hop) hcol
  | clessThanOrEqual v =>
    exact condPush_delta h (fun c hc => hc) rfl (by simpa [cleanOp] using hop) hcol
  | cgreaterThan v =>
    exact condPush_delta h (fun c hc => hc) rfl (by simpa [cleanOp] using hop) hcol
  | cgreaterThanOrEqual v =>
    exact condPush_delta h (fun c hc => hc) rfl (by simpa [cleanOp] using hop) hcol
  | clike v =>
    exact condPush_delta h (fun c hc => hc) rfl (by simpa [cleanOp] using hop) hcol
  | cinDate v =>
    exact condPush_delta h (fun c hc => (countQ_exDate c).trans hc) rfl
      (by simpa [cleanOp] using hop) hcol
  | cinTime v =>
    exact condPush_delta h (fun c hc => (countQ_exTime c d).trans hc) rfl
      (by simpa [cleanOp] using hop) hcol
  | cinYear v =>
    exact condPush_delta h (fun c hc => (countQ_exYear c d).trans hc) rfl
      (by simpa [cleanOp] using hop) hcol
  | cinMonth v =>
    exact condPush_delta h (fun c hc => (countQ_exMonth c d).trans hc) rfl
      (by simpa [cleanOp] using hop) hcol
  | cinDay v =>
    exact condPush_delta h (fun c hc => (countQ_exDay c d).trans hc) rfl
      (by simpa [cleanOp] using hop) hcol
  | cinHour v =>
    exact condPush_delta h (fun c hc => (countQ_exHour c d).trans hc) rfl
      (by simpa [cleanOp] using hop) hcol
  | cinMinute v =>
    exact condPush_delta h (fun c hc => (countQ_exMinute c d).trans hc) rfl
      (by simpa [cleanOp] using hop) hcol
  | cinSecond v =>
    exact condPush_delta h (fun c hc => (countQ_exSecond c d).trans hc) rfl
      (by simpa [cleanOp] using hop) hcol
  | cbetween a b =>
    obtain ⟨column, hc, hcol', -, -, hsink, hstack⟩ := condBetween_ok h
    have hq : countQ column = 0 := by rw [hc] at hcol; exact hcol
    have hcl : cleanOperand a = true ∧ cleanOperand b = true := by
      simpa [cleanOp] using hop
    constructor
    · rw [hstack, hsink, joinAll_snoc]
      simp only [countQ_append, countQ_negStr, hq]
      have hB : countQ " BETWEEN " = 0 := rfl
      have hA : countQ " AND " = 0 := rfl
      have hP : countQ "?" = 1 := rfl
      rw [hB, hA]
      cases a <;> cases b <;>
        simp_all [opHolder, opSink, cleanOperand] <;> omega
    · rw [hcol']; exact hcol
  | cin vs =>
    obtain ⟨column, hc, hcol', -, -, hsink, hstack⟩ := condIn_ok h
    have hq : countQ column = 0 := by rw [hc] at hcol; exact hcol
    have hcl : vs.all cleanOperand = true := by simpa [cleanOp] using hop
    constructor
    · rw [hstack, hsink, joinAll_snoc]
      simp only [countQ_append, countQ_negStr, hq]
      rw [countQ_joinSep_comma, in_count vs hcl]
      have h1 : countQ " IN (" = 0 := rfl
      have h2 : countQ ")" = 0 := rfl
      rw [h1, h2, List.length_append]
      omega
    · rw [hcol']; exact hcol
  | cisNull =>
    obtain ⟨column, hc, hcol', -, -, hsink, hstack⟩ := condIsNull_ok h
    have hq : countQ column = 0 := by rw [hc] at hcol; exact hcol
    constructor
    · rw [hstack, hsink, joinAll_snoc]
      simp only [countQ_append, countQ_negStr, hq]
      have h1 : countQ " IS NULL" = 0 := rfl
      rw [h1]
      omega
    · rw [hcol']; exact hcol
  | cnot =>
    simp only [cstep] at h
    injection h with h
    subst h
    exact ⟨rfl, hcol⟩
  | cand =>
    simp only [cstep] at h
    injection h with h
    subst h
    refine ⟨?_, hcol⟩
    have h1 : countQ " AND " = 0 := rfl
    simp [condAndS, joinAll_snoc, countQ_append, h1]
  | cor =>
    simp only [cstep] at h
    injection h with h
    subst h
    refine ⟨?_, hcol⟩
    have h1 : countQ " OR " = 0 := rfl
    simp [condOrS, joinAll_snoc, countQ_append, h1]
  | copen =>
    simp only [cstep] at h
    injection h with h
    subst h
    refine ⟨?_, hcol⟩
    have h1 : countQ "(" = 0 := rfl
    simp [condOpenS, joinAll_snoc, countQ_append, h1]
  | cclose =>
    simp only [cstep] at h
    injection h with h
    subst h
    refine ⟨?_, hcol⟩
    have h1 : countQ ")" = 0 := rfl
    simp [condCloseS, joinAll_snoc, countQ_append, h1]
  | cparen =>
    simp only [cstep, condParenS] at h
    split at h <;>
      · injection h with h
        subst h
        refine ⟨?_, hcol⟩
        have h1 : countQ "(" = 0 := rfl
        have h2 : countQ ")" = 0 := rfl
        simp [condOpenS, condCloseS, joinAll_snoc, countQ_append, h1, h2]
  | craw text vals =>
    obtain ⟨hcol', -, -, hsink, hstack⟩ := condRaw_ok h
    have hcl : countQ text = 0 ∧ vals = [] := by
      have := hop
      simp [cleanOp, List.isEmpty_iff] at this
      exact this
    constructor
    · rw [hstack, hsink, joinAll_snoc, countQ_append, hcl.1, hcl.2]
      simp
    · rw [hcol']; exact hcol

theorem crun_delta {d : Driver} {ops : List COp} {ctx ctx' : CondCtx}
    (hops : ops.all cleanOp = true) (hcol : cleanCol ctx.cond.column)
    (h : crun d ctx ops = .ok ctx') :
    countQ (joinAll ctx'.cond.stack) + ctx.sink.length
      = countQ (joinAll ctx.cond.stack) + ctx'.sink.length
    ∧ cleanCol ctx'.cond.column := by
  induction ops generalizing ctx with
  | nil =>
    simp only [crun] at h
    injection h with h
    subst h
    exact ⟨rfl, hcol⟩
  | cons op ops ih =>
    rw [List.all_cons, Bool.and_eq_true] at hops
    simp only [crun] at h
    split at h
    · rename_i ctx2 hstep
      obtain ⟨h1, hcol2⟩ := cstep_delta hops.1 hcol hstep
      obtain ⟨h2, hcol'⟩ := ih hops.2 hcol2 h
      exact ⟨by omega, hcol'⟩
    · exact absurd h (by simp)

theorem opSink_notNull (o : Operand) : ∀ w ∈ opSink o, SqlVal.notNull w = true := by
  intro w hw
  cases o with
  | ref rc => simp [opSink] at hw
  | val u =>
    simp [opSink] at hw
    subst hw
    exact Val.notNull_toSql u

theorem cstep_sink {d : Driver} {ctx ctx' : CondCtx} {op : COp}
    (h : cstep d ctx op = .ok ctx') :
    ∃ add, ctx'.sink = ctx.sink ++ add ∧ ∀ v ∈ add, SqlVal.notNull v = true := by
  cases op with
  | ccol n =>
    simp only [cstep] at h
    split at h
    · injection h with h
      subst h
      exact ⟨[], by simp, by simp⟩
    · exact absurd h (by simp)
  | cbetween a b =>
    obtain ⟨column, -, -, -, -, hsink, -⟩ := condBetween_ok h
    refine ⟨opSink a ++ opSink b, by simp [hsink], ?_⟩
    intro v hv
    rcases List.mem_append.mp hv with hv | hv
    · exact opSink_notNull a v hv
    · exact opSink_notNull b v hv
  | cin vs =>
    obtain ⟨column, -, -, -, -, hsink, -⟩ := condIn_ok h
    refine ⟨(vs.map opSink).flatten, hsink, ?_⟩
    intro v hv
    obtain ⟨l, hl, hvl⟩ := List.mem_flatten.mp hv
    obtain ⟨o, -, ho⟩ := List.mem_map.mp hl
    subst ho
    exact opSink_notNull o v hvl
  | cisNull =>
    obtain ⟨column, -, -, -, -, hsink, -⟩ := condIsNull_ok h
    exact ⟨[], by simp [hsink], by simp⟩
  | cnot =>
    simp only [cstep] at h
    injection h with h
    subst h
    exact ⟨[], by simp, by simp⟩
  | cand =>
    simp only [cstep] at h
    injection h with h
    subst h
    exact ⟨[], by simp, by simp⟩
  | cor =>
    simp only [cstep] at h
    injection h with h
    subst h
    exact ⟨[], by simp, by simp⟩
  | copen =>
    simp only [cstep] at h
    injection h with h
    subst h
    exact ⟨[], by simp, by simp⟩
  | cclose =>
    simp only [cstep] at h
    injection h with h
    subst h
    exact ⟨[], by simp, by simp⟩
  | cparen =>
    simp only [cstep, condParenS] at h
    split at h <;>
      · injection h with h
        subst h
        exact ⟨[], by simp, by simp⟩
  | craw text vals =>
    obtain ⟨-, -, -, hsink, -⟩ := condRaw_ok h
    refine ⟨vals.map Val.toSql, hsink, ?_⟩
    intro v hv
    obtain ⟨w, -, hw⟩ := List.mem_map.mp hv
    subst hw
    exact Val.notNull_toSql w
  | cequal v =>
    obtain ⟨column, -, -, -, -, -, hsink, -, -⟩ := condPush_ok h
    exact ⟨opSink v, hsink, opSink_notNull v⟩
  | clessThan v =>
    obtain ⟨column, -, -, -, -, -, hsink, -, -⟩ := condPush_ok h
    exact ⟨opSink v, hsink, opSink_notNull v⟩
  | clessThanOrEqual v =>
    obtain ⟨column, -, -, -, -, -, hsink, -, -⟩ := condPush_ok h
    exact ⟨opSink v, hsink, opSink_notNull v⟩
  | cgreaterThan v =>
    obtain ⟨column, -, -, -, -, -, hsink, -, -⟩ := condPush_ok h
    exact ⟨opSink v, hsink, opSink_notNull v⟩
  | cgreaterThanOrEqual v =>
    obtain ⟨column, -, -, -, -, -, hsink, -, -⟩ := condPush_ok h
    exact ⟨opSink v, hsink, opSink_notNull v⟩
  | clike v =>
    obtain ⟨column, -, -, -, -, -, hsink, -, -⟩ := condPush_ok h
    exact ⟨opSink v, hsink, opSink_notNull v⟩
  | cinDate v =>
    obtain ⟨column, -, -, -, -, -, hsink, -, -⟩ := condPush_ok h
    exact ⟨opSink v, hsink, opSink_notNull v⟩
  | cinTime v =>
    obtain ⟨column, -, -, -, -, -, hsink, -, -⟩ := condPush_ok h
    exact ⟨opSink v, hsink, opSink_notNull v⟩
  | cinYear v =>
    obtain ⟨column, -, -, -, -, -, hsink, -, -⟩ := condPush_ok h
    exact ⟨opSink v, hsink, opSink_notNull v⟩
  | cinMonth v =>
    obtain ⟨column, -, -, -, -, -, hsink, -, -⟩ := condPush_ok h
    exact ⟨opSink v, hsink, opSink_notNull v⟩
  | cinDay v =>
    obtain ⟨column, -, -, -, -, -, hsink, -, -⟩ := condPush_ok h
    exact ⟨opSink v, hsink, opSink_notNull v⟩
  | cinHour v =>
    obtain ⟨column, -, -, -, -, -, hsink, -, -⟩ := condPush_ok h
    exact ⟨opSink v, hsink, opSink_notNull v⟩
  | cinMinute v =>
    obtain ⟨column, -, -, -, -, -, hsink, -, -⟩ := condPush_ok h
    exact ⟨opSink v, hsink, opSink_notNull v⟩
  | cinSecond v =>
    obtain ⟨column, -, -, -, -, -, hsink, -, -⟩ := condPush_ok h
    exact ⟨opSink v, hsink, opSink_notNull v⟩

theorem crun_sink {d : Driver} {ops : List COp} {ctx ctx' : CondCtx}
    (h : crun d ctx ops = .ok ctx') :
    ∃ add, ctx'.sink = ctx.sink ++ add ∧ ∀ v ∈ add, SqlVal.notNull v = true := by
  induction ops generalizing ctx with
  | nil =>
    simp only [crun] at h
    injection h with h
    subst h
    exact ⟨[], by simp, by simp⟩
  | cons op ops ih =>
    simp only [crun] at h
    split at h
    · rename_i ctx2 hstep
      obtain ⟨a1, ha1, hn1⟩ := cstep_sink hstep
      obtain ⟨a2, ha2, hn2⟩ := ih h
      refine ⟨a1 ++ a2, by rw [ha2, ha1, List.append_assoc], ?_⟩
      intro v hv
      rcases List.mem_append.mp hv with hv | hv
      · exact hn1 v hv
      · exact hn2 v hv
    · exact absurd h (by simp)

theorem row_count (r : List SqlVal) :
    ((r.map nullToken).map countQ).sum = (r.filter SqlVal.notNull).length := by
  induction r with
  | nil => rfl
  | cons v vs ih =>
    rw [List.map_map] at ih
    cases v with
    | null =>
      have h0 : countQ "NULL" = 0 := rfl
      simp [nullToken, SqlVal.notNull, h0, ih]
    | str s =>
      have h1 : countQ "?" = 1 := rfl
      simp [nullToken, SqlVal.notNull, h1, ih]
      omega
    | num n =>
      have h1 : countQ "?" = 1 := rfl
      simp [nullToken, SqlVal.notNull, h1, ih]
      omega

theorem countQ_joinSep_zero (l : List String) (h : ∀ c ∈ l, countQ c = 0) :
    countQ (joinSep ", " l) = 0 := by
  rw [countQ_joinSep_comma]
  apply List.sum_eq_zero
  intro x hx
  obtain ⟨c, hc, hcx⟩ := List.mem_map.mp hx
  rw [← hcx]
  exact h c hc

theorem buildCond_ok_text {c : ConditionS} {ct : String}
    (h : buildCond c = .ok ct) : ct = condText c := by
  simp only [buildCond] at h
  split at h
  · exact absurd h (by simp)
  · split at h
    · exact absurd h (by simp)
    · split at h
      · exact absurd h (by simp)
      · split at h
        · exact absurd h (by simp)
        · split at h
          · exact absurd h (by simp)
          · split at h
            · exact absurd h (by simp)
            · split at h
              · exact absurd h (by simp)
              · split at h
                · exact absurd h (by simp)
                · injection h with h
                  exact h.symm

/-- Insert.build on a success: the rendered text has exactly one placeholder
per non-null row cell, the post-build sink is the rows with nulls filtered
out, and the flattened sink length equals the placeholder count (given that
the table, column and returning identifiers hold no placeholder characters). -/
theorem insertBuild_count {s : InsertS} {q : String} {s2 : InsertS}
    (htab : ∀ t, s.table = some t → countQ t = 0)
    (hcols : ∀ cs, s.columns = some cs → ∀ c ∈ cs, countQ c = 0)
    (hret : ∀ rs, s.returnings = some rs → ∀ c ∈ rs, countQ c = 0)
    (h : insertBuild s = .ok (q, s2)) :
    countQ q = s2.values.flatten.length ∧
    s2.values = s.values.map (fun row => row.filter SqlVal.notNull) := by
  unfold insertBuild at h
  split at h
  · exact absurd h (by simp)
  · rename_i table htable
    split at h
    · exact absurd h (by simp)
    · split at h
      · exact absurd h (by simp)
      · rename_i cols hcolumns
        split at h
        · exact absurd h (by simp)
        · split at h
          · exact absurd h (by simp)
          · injection h with h
            injection h with hq hs2
            subst hq
            subst hs2
            refine ⟨?_, rfl⟩
            simp only
            simp only [countQ_append]
            have e1 : countQ "INSERT INTO " = 0 := rfl
            have e2 : countQ " (" = 0 := rfl
            have e3 : countQ ") VALUES " = 0 := rfl
            have e4 : countQ ";" = 0 := rfl
            rw [e1, e2, e3, e4, htab table htable,
              countQ_joinSep_zero cols (hcols cols hcolumns)]
            have hrets : countQ (match s.returnings with
                | some rs => " RETURNING " ++ joinSep ", " rs
                | none => "") = 0 := by
              match hr : s.returnings with
              | some rs =>
                rw [countQ_append, countQ_joinSep_zero rs (hret rs hr)]
                rfl
              | none => rfl
            rw [hrets, countQ_joinSep_comma]
            rw [List.map_map, List.length_flatten, List.map_map]
            have hrow : ∀ r : List SqlVal,
                countQ ("(" ++ joinSep ", " (r.map nullToken) ++ ")")
                  = (r.filter SqlVal.notNull).length := by
              intro r
              rw [countQ_wrap "(" ")" rfl rfl, countQ_joinSep_comma, List.map_map]
              have := row_count r
              rw [List.map_map] at this
              exact this
            simp only [Function.comp_def, hrow]
            omega

theorem setFragments_count (cs : List String) (vs1 vs2 : List SqlVal)
    (hlen : cs.length = vs1.length) (hclean : ∀ c ∈ cs, countQ c = 0) :
    ((setFragments cs (vs1 ++ vs2)).map countQ).sum
      = (vs1.filter SqlVal.notNull).length := by
  induction cs generalizing vs1 with
  | nil =>
    cases vs1 with
    | nil => rfl
    | cons v vs => exact absurd hlen (by simp)
  | cons c cs ih =>
    cases vs1 with
    | nil => exact absurd hlen (by simp)
    | cons v vs =>
      have hc : countQ c = 0 := hclean c (by simp)
      have hcs : ∀ x ∈ cs, countQ x = 0 := fun x hx => hclean x (by simp [hx])
      have hlen2 : cs.length = vs.length := by simpa using hlen
      have ihv := ih vs hlen2 hcs
      cases v with
      | null =>
        have hN : countQ (c ++ " = NULL") = 0 := by
          rw [countQ_append, hc]; rfl
        simp [setFragments, SqlVal.notNull, hN, ihv]
      | str w =>
        have hQ : countQ (c ++ " = ?") = 1 := by
          rw [countQ_append, hc]; rfl
        simp [setFragments, SqlVal.notNull, hQ, ihv]
        omega
      | num n =>
        have hQ : countQ (c ++ " = ?") = 1 := by
          rw [countQ_append, hc]; rfl
        simp [setFragments, SqlVal.notNull, hQ, ihv]
        omega

/-- C8, counterexample: the claim says PostgreSQL gets the `::DATE` cast for
the date part, but `exDate` branches on no driver at all — under a PostgreSQL
connection, `inDate` still renders `DATE(created_at) = ?`, which is not the
claimed `created_at::DATE` cast form. -/
theorem c8_counterexample :
    exDate "created_at" = "DATE(created_at)" ∧
    exDate "created_at" ≠ "created_at::DATE" ∧
    cstep .postgresql { cond := { column := some "created_at" }, sink := [] }
        (.cinDate (.val (.str "2024-01-01")))
      = .ok { cond := { stack := ["DATE(created_at) = ?"]
                        negate := false
                        opened := 0
                        column := some "created_at" }
              sink := [.str "2024-01-01"] } := by
  refine ⟨rfl, by decide, by decide⟩

/-- C8 (amended): the date-part helpers return exactly these fragments —
MySQL gets DATE()/TIME()/YEAR()/MONTH()/DAY()/HOUR()/MINUTE()/SECOND();
PostgreSQL gets TO_CHAR(col,'HH24:MI:SS') for the time part and
EXTRACT(part FROM col) for year through second, but the date part is the
driver-independent DATE(col), not a ::DATE cast; SQLite gets DATE() for the
date part and STRFTIME with the matching format string otherwise. -/
theorem c8_amended_dialect_fragments (col : String) :
    exDate col = "DATE(" ++ col ++ ")" ∧
    exTime col .mysql = "TIME(" ++ col ++ ")" ∧
    exYear col .mysql = "YEAR(" ++ col ++ ")" ∧
    exMonth col .mysql = "MONTH(" ++ col ++ ")" ∧
    exDay col .mysql = "DAY(" ++ col ++ ")" ∧
    exHour col .mysql = "HOUR(" ++ col ++ ")" ∧
    exMinute col .mysql = "MINUTE(" ++ col ++ ")" ∧
    exSecond col .mysql = "SECOND(" ++ col ++ ")" ∧
    exTime col .postgresql = "TO_CHAR(" ++ col ++ ", \x27HH24:MI:SS\x27)" ∧
    exYear col .postgresql = "EXTRACT(YEAR FROM " ++ col ++ ")" ∧
    exMonth col .postgresql = "EXTRACT(MONTH FROM " ++ col ++ ")" ∧
    exDay col .postgresql = "EXTRACT(DAY FROM " ++ col ++ ")" ∧
    exHour col .postgresql = "EXTRACT(HOUR FROM " ++ col ++ ")" ∧
    exMinute col .postgresql = "EXTRACT(MINUTE FROM " ++ col ++ ")" ∧
    exSecond col .postgresql = "EXTRACT(SECOND FROM " ++ col ++ ")" ∧
    exTime col .sqlite = "STRFTIME(\x27%H:%M:%S\x27, " ++ col ++ ")" ∧
    exYear col .sqlite = "STRFTIME(\x27%Y\x27, " ++ col ++ ")" ∧
    exMonth col .sqlite = "STRFTIME(\x27%m\x27, " ++ col ++ ")" ∧
    exDay col .sqlite = "STRFTIME(\x27%d\x27, " ++ col ++ ")" ∧
    exHour col .sqlite = "STRFTIME(\x27%H\x27, " ++ col ++ ")" ∧
    exMinute col .sqlite = "STRFTIME(\x27%M\x27, " ++ col ++ ")" ∧
    exSecond col .sqlite = "STRFTIME(\x27%S\x27, " ++ col ++ ")" :=
  ⟨rfl, rfl, rfl, rfl, rfl, rfl, rfl, rfl, rfl, rfl, rfl, rfl, rfl, rfl, rfl,
   rfl, rfl, rfl, rfl, rfl, rfl, rfl⟩

/-- C2, counterexample: a reachable Condition (equal, and(), or(), equal)
assembles the text "age = ? AND  OR age = ?", which contains consecutive
AND/OR operators in the spec's sense, yet build() SUCCEEDS — the code's
consecutive-operator regex only pairs AND with AND and OR with OR, so the
claimed iff over the seven forbidden patterns fails on mixed pairs. -/
theorem c2_counterexample :
    crun .mysql {} [.ccol "age", .cequal (.val (.num 18)), .cand, .cor,
        .cequal (.val (.num 1))]
      = .ok { cond := { stack := ["age = ?", " AND ", " OR ", "age = ?"]
                        negate := false
                        opened := 0
                        column := some "age" }
              sink := [.num 18, .num 1] } ∧
    buildCond { stack := ["age = ?", " AND ", " OR ", "age = ?"]
                negate := false
                opened := 0
                column := some "age" }
      = .ok "age = ? AND  OR age = ?" ∧
    specConsecutiveAndOr "age = ? AND  OR age = ?" = true := by
  refine ⟨by decide, by decide, by decide⟩

theorem buildOkIff (c : ConditionS) :
    buildCond c = .ok (condText c) ↔
      (c.opened = 0 ∧ hasParenThenOp (condText c) = false ∧
       hasOpThenClose (condText c) = false ∧
       hasSameOpTwice (condText c) = false ∧
       hasEmptyParens (condText c) = false ∧
       (jsEndsWith (condText c) "AND" || jsEndsWith (condText c) "OR") = false ∧
       (jsStartsWith (condText c) "AND" || jsStartsWith (condText c) "OR") = false ∧
       (condText c).isEmpty = false) := by
  simp only [buildCond]
  split_ifs with h1 h2 h3 h4 h5 h6 h7 h8 <;> simp_all <;> try (intros; simp_all)

theorem buildErrIff1 (c : ConditionS) :
    buildCond c = .error "Syntax error: Unmatched parentheses." ↔
      ¬c.opened = 0 := by
  simp only [buildCond]
  split_ifs with h1 h2 h3 h4 h5 h6 h7 h8 <;> simp_all <;> try (intros; simp_all)

theorem buildErrIff2 (c : ConditionS) :
    buildCond c =
        .error "Invalid syntax: AND/OR cannot directly follow an opening parenthesis." ↔
      (c.opened = 0 ∧ hasParenThenOp (condText c) = true) := by
  simp only [buildCond]
  split_ifs with h1 h2 h3 h4 h5 h6 h7 h8 <;> simp_all <;> try (intros; simp_all)

theorem buildErrIff3 (c : ConditionS) :
    buildCond c =
        .error "Invalid syntax: AND/OR cannot directly precede a closing parenthesis." ↔
      (c.opened = 0 ∧ hasParenThenOp (condText c) = false ∧
       hasOpThenClose (condText c) = true) := by
  simp only [buildCond]
  split_ifs with h1 h2 h3 h4 h5 h6 h7 h8 <;> simp_all <;> try (intros; simp_all)

theorem buildErrIff4 (c : ConditionS) :
    buildCond c = .error "Invalid syntax: Consecutive AND/OR operators found." ↔
      (c.opened = 0 ∧ hasParenThenOp (condText c) = false ∧
       hasOpThenClose (condText c) = false ∧
       hasSameOpTwice (condText c) = true) := by
  simp only [buildCond]
  split_ifs with h1 h2 h3 h4 h5 h6 h7 h8 <;> simp_all <;> try (intros; simp_all)

theorem buildErrIff5 (c : ConditionS) :
    buildCond c = .error "Invalid syntax: Empty parentheses found." ↔
      (c.opened = 0 ∧ hasParenThenOp (condText c) = false ∧
       hasOpThenClose (condText c) = false ∧
       hasSameOpTwice (condText c) = false ∧
       hasEmptyParens (condText c) = true) := by
  simp only [buildCond]
  split_ifs with h1 h2 h3 h4 h5 h6 h7 h8 <;> simp_all <;> try (intros; simp_all)

theorem buildErrIff6 (c : ConditionS) :
    buildCond c = .error "Invalid syntax: Condition cannot end with an operator." ↔
      (c.opened = 0 ∧ hasParenThenOp (condText c) = false ∧
       hasOpThenClose (condText c) = false ∧
       hasSameOpTwice (condText c) = false ∧
       hasEmptyParens (condText c) = false ∧
       (jsEndsWith (condText c) "AND" || jsEndsWith (condText c) "OR") = true) := by
  simp only [buildCond]
  split_ifs with h1 h2 h3 h4 h5 h6 h7 h8 <;> simp_all <;> try (intros; simp_all)

theorem buildErrIff7 (c : ConditionS) :
    buildCond c = .error "Invalid syntax: Condition cannot start with an operator." ↔
      (c.opened = 0 ∧ hasParenThenOp (condText c) = false ∧
       hasOpThenClose (condText c) = false ∧
       hasSameOpTwice (condText c) = false ∧
       hasEmptyParens (condText c) = false ∧
       (jsEndsWith (condText c) "AND" || jsEndsWith (condText c) "OR") = false ∧
       (jsStartsWith (condText c) "AND" || jsStartsWith (condText c) "OR") = true) := by
  simp only [buildCond]
  split_ifs with h1 h2 h3 h4 h5 h6 h7 h8 <;> simp_all <;> try (intros; simp_all)

theorem buildErrIff8 (c : ConditionS) :
    buildCond c = .error "Invalid syntax: Condition cannot be empty." ↔
      (c.opened = 0 ∧ hasParenThenOp (condText c) = false ∧
       hasOpThenClose (condText c) = false ∧
       hasSameOpTwice (condText c) = false ∧
       hasEmptyParens (condText c) = false ∧
       (jsEndsWith (condText c) "AND" || jsEndsWith (condText c) "OR") = false ∧
       (jsStartsWith (condText c) "AND" || jsStartsWith (condText c) "OR") = false ∧
       (condText c).isEmpty = true) := by
  simp only [buildCond]
  split_ifs with h1 h2 h3 h4 h5 h6 h7 h8 <;> simp_all <;> try (intros; simp_all)

/-- C2 (amended): Condition.build returns the joined, trimmed token text iff
the net parenthesis count is zero and none of the seven code patterns match —
where the "consecutive AND/OR" pattern pairs an operator only with itself
(AND AND or OR OR; mixed AND OR pairs are not detected) — and otherwise the
first failing check, in exactly the source order after the depth check,
determines the (distinct) error raised. -/
theorem c2_amended_build_iff (c : ConditionS) :
    (buildCond c = .ok (condText c) ↔
      (c.opened = 0 ∧ hasParenThenOp (condText c) = false ∧
       hasOpThenClose (condText c) = false ∧
       hasSameOpTwice (condText c) = false ∧
       hasEmptyParens (condText c) = false ∧
       (jsEndsWith (condText c) "AND" || jsEndsWith (condText c) "OR") = false ∧
       (jsStartsWith (condText c) "AND" || jsStartsWith (condText c) "OR") = false ∧
       (condText c).isEmpty = false)) ∧
    (buildCond c = .error "Syntax error: Unmatched parentheses." ↔
      ¬c.opened = 0) ∧
    (buildCond c =
        .error "Invalid syntax: AND/OR cannot directly follow an opening parenthesis." ↔
      (c.opened = 0 ∧ hasParenThenOp (condText c) = true)) ∧
    (buildCond c =
        .error "Invalid syntax: AND/OR cannot directly precede a closing parenthesis." ↔
      (c.opened = 0 ∧ hasParenThenOp (condText c) = false ∧
       hasOpThenClose (condText c) = true)) ∧
    (buildCond c = .error "Invalid syntax: Consecutive AND/OR operators found." ↔
      (c.opened = 0 ∧ hasParenThenOp (condText c) = false ∧
       hasOpThenClose (condText c) = false ∧
       hasSameOpTwice (condText c) = true)) ∧
    (buildCond c = .error "Invalid syntax: Empty parentheses found." ↔
      (c.opened = 0 ∧ hasParenThenOp (condText c) = false ∧
       hasOpThenClose (condText c) = false ∧
       hasSameOpTwice (condText c) = false ∧
       hasEmptyParens (condText c) = true)) ∧
    (buildCond c = .error "Invalid syntax: Condition cannot end with an operator." ↔
      (c.opened = 0 ∧ hasParenThenOp (condText c) = false ∧
       hasOpThenClose (condText c) = false ∧
       hasSameOpTwice (condText c) = false ∧
       hasEmptyParens (condText c) = false ∧
       (jsEndsWith (condText c) "AND" || jsEndsWith (condText c) "OR") = true)) ∧
    (buildCond c = .error "Invalid syntax: Condition cannot start with an operator." ↔
      (c.opened = 0 ∧ hasParenThenOp (condText c) = false ∧
       hasOpThenClose (condText c) = false ∧
       hasSameOpTwice (condText c) = false ∧
       hasEmptyParens (condText c) = false ∧
       (jsEndsWith (condText c) "AND" || jsEndsWith (condText c) "OR") = false ∧
       (jsStartsWith (condText c) "AND" || jsStartsWith (condText c) "OR") = true)) ∧
    (buildCond c = .error "Invalid syntax: Condition cannot be empty." ↔
      (c.opened = 0 ∧ hasParenThenOp (condText c) = false ∧
       hasOpThenClose (condText c) = false ∧
       hasSameOpTwice (condText c) = false ∧
       hasEmptyParens (condText c) = false ∧
       (jsEndsWith (condText c) "AND" || jsEndsWith (condText c) "OR") = false ∧
       (jsStartsWith (condText c) "AND" || jsStartsWith (condText c) "OR") = false ∧
       (condText c).isEmpty = true)) :=
  ⟨buildOkIff c, buildErrIff1 c, buildErrIff2 c, buildErrIff3 c, buildErrIff4 c,
   buildErrIff5 c, buildErrIff6 c, buildErrIff7 c, buildErrIff8 c⟩

theorem insertBuild_ok {s : InsertS} {q : String} {s2 : InsertS}
    (h : insertBuild s = .ok (q, s2)) :
    s2 = { s with values := s.values.map (fun row => row.filter SqlVal.notNull) } := by
  unfold insertBuild at h
  split at h
  · exact absurd h (by simp)
  · split at h
    · exact absurd h (by simp)
    · split at h
      · exact absurd h (by simp)
      · split at h
        · exact absurd h (by simp)
        · split at h
          · exact absurd h (by simp)
          · injection h with h
            injection h with hq hs2
            exact hs2.symm

theorem updateBuild_ok {s : UpdateS} {q : String} {s2 : UpdateS}
    (h : updateBuild s = .ok (q, s2)) :
    s2 = { s with values := s.values.filter SqlVal.notNull } ∧
    ∃ table cond ct, s.table = some table ∧ s.condition = some cond ∧
      buildCond cond = .ok ct ∧
      q = "UPDATE " ++ table ++ " SET " ++
          joinSep ", " (setFragments s.columns s.values) ++ " WHERE " ++ ct ++ ";" := by
  unfold updateBuild at h
  split at h
  · exact absurd h (by simp)
  · rename_i table htable
    split at h
    · exact absurd h (by simp)
    · split at h
      · exact absurd h (by simp)
      · split at h
        · exact absurd h (by simp)
        · split at h
          · exact absurd h (by simp)
          · rename_i cond hcond
            split at h
            · rename_i ct hct
              injection h with h
              injection h with hq hs2
              exact ⟨hs2.symm, table, cond, ct, htable, hcond, hct, hq.symm⟩
            · exact absurd h (by simp)

theorem deleteBuild_ok {s : DeleteS} {q : String} (h : deleteBuild s = .ok q) :
    ∃ table cond ct, s.table = some table ∧ s.condition = some cond ∧
      buildCond cond = .ok ct ∧
      q = "DELETE FROM " ++ table ++ " WHERE " ++ ct ++ ";" := by
  unfold deleteBuild at h
  split at h
  · exact absurd h (by simp)
  · rename_i table htable
    split at h
    · exact absurd h (by simp)
    · split at h
      · exact absurd h (by simp)
      · rename_i cond hcond
        split at h
        · rename_i ct hct
          injection h with h
          exact ⟨table, cond, ct, htable, hcond, hct, h.symm⟩
        · exact absurd h (by simp)

theorem deleteFrom_ok {s s' : DeleteS} {t : String} (h : deleteFrom s t = .ok s') :
    isFullStrB t = true ∧ s' = { s with table := some t } := by
  unfold deleteFrom at h
  split at h
  · exact absurd h (by simp)
  · rename_i ht
    injection h with h
    exact ⟨by simpa using ht, h.symm⟩

theorem updateTable_ok {s s' : UpdateS} {t : String} (h : updateTable s t = .ok s') :
    isFullStrB t = true ∧ s' = { s with table := some t } := by
  unfold updateTable at h
  split at h
  · exact absurd h (by simp)
  · rename_i ht
    injection h with h
    exact ⟨by simpa using ht, h.symm⟩

theorem updateWhere_ok {d : Driver} {s s' : UpdateS} {ops : List COp}
    (h : updateWhere d s ops = .ok s') :
    ∃ ctx : CondCtx,
      crun d { cond := s.condition.getD {}, sink := s.values } ops = .ok ctx ∧
      s' = { s with condition := some ctx.cond, values := ctx.sink } := by
  simp only [updateWhere] at h
  split at h
  · rename_i ctx hctx
    injection h with h
    exact ⟨ctx, hctx, h.symm⟩
  · exact absurd h (by simp)

theorem deleteWhere_ok {d : Driver} {s s' : DeleteS} {ops : List COp}
    (h : deleteWhere d s ops = .ok s') :
    ∃ ctx : CondCtx,
      crun d { cond := s.condition.getD {}, sink := s.values } ops = .ok ctx ∧
      s' = { s with condition := some ctx.cond, values := ctx.sink } := by
  simp only [deleteWhere] at h
  split at h
  · rename_i ctx hctx
    injection h with h
    exact ⟨ctx, hctx, h.symm⟩
  · exact absurd h (by simp)

theorem filter_notNull_of_no_null {l : List SqlVal} (h : ∀ v ∈ l, v ≠ SqlVal.null) :
    l.filter SqlVal.notNull = l := by
  induction l with
  | nil => rfl
  | cons v vs ih =>
    have hv : SqlVal.notNull v = true := by
      cases v with
      | null => exact absurd rfl (h .null (by simp))
      | str s => rfl
      | num n => rfl
    rw [List.filter_cons_of_pos hv, ih (fun w hw => h w (by simp [hw]))]

theorem map_filter_notNull_of_no_null {rows : List (List SqlVal)}
    (h : ∀ r ∈ rows, ∀ v ∈ r, v ≠ SqlVal.null) :
    rows.map (fun row => row.filter SqlVal.notNull) = rows := by
  induction rows with
  | nil => rfl
  | cons r rs ih =>
    rw [List.map_cons, filter_notNull_of_no_null (h r (by simp)),
      ih (fun x hx => h x (by simp [hx]))]

/-- The Insert state reached by into('t').row({a:1, b:null}). -/
def c3state : InsertS :=
  { table := some "t", columns := some ["a", "b"], values := [[.num 1, .null]] }

/-- The same state after the first build() has filtered the null out. -/
def c3state2 : InsertS :=
  { table := some "t", columns := some ["a", "b"], values := [[.num 1]] }

/-- C3, counterexample: on the reachable Insert state into('t').row({a:1,
b:null}), the first build() returns "...VALUES (?, NULL);" and, as a side
effect, filters the null out of the sink row; the second build() — with no
intervening mutating call — then returns the DIFFERENT text "...VALUES (?);",
so build() is not idempotent in the presence of null row values. -/
theorem c3_counterexample :
    insertInto insertInit "t" = .ok { table := some "t" } ∧
    insertRow { table := some "t" } [("a", .num 1), ("b", .null)] = .ok c3state ∧
    insertBuild c3state = .ok ("INSERT INTO t (a, b) VALUES (?, NULL);", c3state2) ∧
    insertBuild c3state2 = .ok ("INSERT INTO t (a, b) VALUES (?);", c3state2) ∧
    ("INSERT INTO t (a, b) VALUES (?, NULL);" : String)
      ≠ "INSERT INTO t (a, b) VALUES (?);" := by
  refine ⟨by decide, by decide, by decide, by decide, by decide⟩

/-- C3 (amended): build() is idempotent — second call returns identical text
and leaves the Value Sink identical — provided the state holds no null row
values; when a null is present, Insert.build and Update.build filter it from
the sink, so the second build() renders that slot differently (Delete.build
mutates nothing by construction: it is a pure function of the state). -/
theorem c3_amended_idempotent_without_nulls :
    (∀ (s : InsertS) (q : String) (s2 : InsertS),
       (∀ r ∈ s.values, ∀ v ∈ r, v ≠ SqlVal.null) →
       insertBuild s = .ok (q, s2) →
       s2 = s ∧ insertBuild s2 = .ok (q, s2)) ∧
    (∀ (u : UpdateS) (q : String) (u2 : UpdateS),
       (∀ v ∈ u.values, v ≠ SqlVal.null) →
       updateBuild u = .ok (q, u2) →
       u2 = u ∧ updateBuild u2 = .ok (q, u2)) := by
  constructor
  · intro s q s2 hnull h
    have hs2 := insertBuild_ok h
    have hid : s.values.map (fun row => row.filter SqlVal.notNull) = s.values :=
      map_filter_notNull_of_no_null hnull
    have heq : s2 = s := by
      rw [hs2, hid]
    subst heq
    exact ⟨rfl, h⟩
  · intro u q u2 hnull h
    have hu2 := (updateBuild_ok h).1
    have hid : u.values.filter SqlVal.notNull = u.values :=
      filter_notNull_of_no_null hnull
    have heq : u2 = u := by
      rw [hu2, hid]
    subst heq
    exact ⟨rfl, h⟩

/-- A concrete null-free Insert state for the C3 witness. -/
def c3w : InsertS :=
  { table := some "users", columns := some ["email", "password"],
    values := [[.str "a@b.com", .str "123"]] }

/-- C3 witness: the amended idempotency theorem applied to a concrete
null-free Insert state. -/
theorem c3_witness :
    c3w = c3w ∧
    insertBuild c3w = .ok ("INSERT INTO users (email, password) VALUES (?, ?);", c3w) :=
  c3_amended_idempotent_without_nulls.1 c3w
    "INSERT INTO users (email, password) VALUES (?, ?);" c3w
    (by decide) (by decide)

/-- The Insert state after the first row {a:1, b:2}. -/
def c4s1 : InsertS :=
  { table := some "t", columns := some ["a", "b"], values := [[.num 1, .num 2]] }

/-- The Insert state after the second row {b:3, a:4} (same key set, reversed
key order) has been accepted. -/
def c4s2 : InsertS :=
  { table := some "t", columns := some ["a", "b"],
    values := [[.num 1, .num 2], [.num 3, .num 4]] }

/-- Modelled from the spec: the row-vector "ordered by the established column
list" — for each established column, the row object's value under that key. -/
def rowVecByCols (cols : List String) (row : List (String × SqlVal)) : List SqlVal :=
  cols.filterMap (fun c => (row.find? (fun p => p.1 == c)).map Prod.snd)

/-- C4, code bug: row({b:3, a:4}) after row({a:1, b:2}) passes the
order-independent key validation, but the appended row-vector is
Object.values in the OBJECT's key order ([3, 4]), not in the established
column order ([4, 3]); the rendered INSERT therefore binds b's value 3 to
column a and a's value 4 to column b. -/
theorem c4_row_order_bug :
    insertRow { insertInit with table := some "t" } [("a", .num 1), ("b", .num 2)]
      = .ok c4s1 ∧
    insertRow c4s1 [("b", .num 3), ("a", .num 4)] = .ok c4s2 ∧
    c4s2.values = [[.num 1, .num 2], [.num 3, .num 4]] ∧
    rowVecByCols ["a", "b"] [("b", .num 3), ("a", .num 4)] = [.num 4, .num 3] ∧
    ([SqlVal.num 3, SqlVal.num 4] : List SqlVal) ≠ [SqlVal.num 4, SqlVal.num 3] ∧
    insertBuild c4s2 = .ok ("INSERT INTO t (a, b) VALUES (?, ?), (?, ?);", c4s2) ∧
    c4s2.values.flatten = [.num 1, .num 2, .num 3, .num 4] := by
  refine ⟨by decide, by decide, by decide, by decide, by decide, by decide, by decide⟩

/-- Insert state with a returning list, as set by returning('id'). -/
def c5s : InsertS :=
  { table := some "users", columns := some ["email"],
    values := [[.str "a@b.com"]], returnings := some ["id"] }

/-- The states of the post-reset chain into('t2').row({a:1}). -/
def c5s2 : InsertS := { table := some "t2", returnings := some ["id"] }

def c5s3 : InsertS :=
  { table := some "t2", columns := some ["a"], values := [[.num 1]],
    returnings := some ["id"] }

/-- C5, code bug: Insert.reset clears table, columns, values and the cached
query but leaves the returning-column list untouched, although its own doc
comment says it clears all properties; a new INSERT built after reset() still
carries the stale RETURNING clause, unlike a freshly constructed builder. -/
theorem c5_reset_keeps_returnings_bug :
    insertReset c5s
      = { table := none, columns := none, returnings := some ["id"],
          values := [], query := none } ∧
    (insertReset c5s).returnings = some ["id"] ∧
    insertInto (insertReset c5s) "t2" = .ok c5s2 ∧
    insertRow c5s2 [("a", .num 1)] = .ok c5s3 ∧
    insertBuild c5s3 = .ok ("INSERT INTO t2 (a) VALUES (?) RETURNING id;", c5s3) ∧
    insertBuild { c5s3 with returnings := none }
      = .ok ("INSERT INTO t2 (a) VALUES (?);", { c5s3 with returnings := none }) := by
  refine ⟨by decide, by decide, by decide, by decide, by decide, by decide⟩

/-- C10: Update.set replaces the entire Value Sink with the row's values and
the column list with its keys, discarding anything previously appended —
including bindings pushed by a where() built before set(); where() only ever
appends to the sink it receives, so the set-before-where ordering is the one
that preserves the WHERE bindings. -/
theorem c10_set_replaces_sink :
    (∀ (s : UpdateS) (row : List (String × SqlVal)),
       updateSet s row
         = { s with columns := row.map Prod.fst, values := row.map Prod.snd }) ∧
    (∀ (d : Driver) (s : UpdateS) (ops : List COp) (s2 : UpdateS),
       updateWhere d s ops = .ok s2 →
       ∃ add, s2.values = s.values ++ add) ∧
    (∀ (d : Driver) (s : UpdateS) (ops : List COp) (s2 : UpdateS)
       (row : List (String × SqlVal)),
       updateWhere d s ops = .ok s2 →
       (updateSet s2 row).values = row.map Prod.snd) := by
  refine ⟨fun s row => rfl, ?_, fun d s ops s2 row h => rfl⟩
  intro d s ops s2 h
  obtain ⟨ctx, hctx, hs2⟩ := updateWhere_ok h
  obtain ⟨add, hadd, -⟩ := crun_sink hctx
  exact ⟨add, by rw [hs2]; exact hadd⟩

/-- Update state reached by table('t').where(col('id').equal(7)): the WHERE
binding 7 sits in the sink. -/
def c10mid : UpdateS :=
  { table := some "t",
    condition := some { stack := ["id = ?"], column := some "id" },
    values := [.num 7] }

/-- C10 witness: set() after that where() discards the WHERE binding — the
sink is exactly the new row's values. -/
theorem c10_witness :
    (updateSet c10mid [("gender", SqlVal.str "male")]).values
      = List.map Prod.snd [("gender", SqlVal.str "male")] :=
  c10_set_replaces_sink.2.2 .mysql
    { table := some "t" } [.ccol "id", .cequal (.val (.num 7))] c10mid
    [("gender", SqlVal.str "male")] (by decide)

/-- The comparison methods that take a single operand accepting a Reference
Marker: equal, lessThan, lessThanOrEqual, greaterThan, greaterThanOrEqual,
like, and inDate through inSecond. -/
inductive Cmp1 where
  | equal
  | lessThan
  | lessThanOrEqual
  | greaterThan
  | greaterThanOrEqual
  | like
  | inDate
  | inTime
  | inYear
  | inMonth
  | inDay
  | inHour
  | inMinute
  | inSecond
deriving DecidableEq, Repr

/-- Dispatch of a single-operand comparison method. -/
def cmp1Apply (d : Driver) (ctx : CondCtx) : Cmp1 → Operand → Except String CondCtx
  | .equal, v => condEqual ctx v
  | .lessThan, v => condLessThan ctx v
  | .lessThanOrEqual, v => condLessThanOrEqual ctx v
  | .greaterThan, v => condGreaterThan ctx v
  | .greaterThanOrEqual, v => condGreaterThanOrEqual ctx v
  | .like, v => condLike ctx v
  | .inDate, v => condInDate ctx v
  | .inTime, v => condInTime d ctx v
  | .inYear, v => condInYear d ctx v
  | .inMonth, v => condInMonth d ctx v
  | .inDay, v => condInDay d ctx v
  | .inHour, v => condInHour d ctx v
  | .inMinute, v => condInMinute d ctx v
  | .inSecond, v => condInSecond d ctx v

/-- The left-hand side each method renders before its operator: the column
itself, or the column wrapped in the dialect's extraction fragment. -/
def cmp1Lhs (d : Driver) : Cmp1 → String → String
  | .equal => fun c => c
  | .lessThan => fun c => c
  | .lessThanOrEqual => fun c => c
  | .greaterThan => fun c => c
  | .greaterThanOrEqual => fun c => c
  | .like => fun c => c
  | .inDate => exDate
  | .inTime => fun c => exTime c d
  | .inYear => fun c => exYear c d
  | .inMonth => fun c => exMonth c d
  | .inDay => fun c => exDay c d
  | .inHour => fun c => exHour c d
  | .inMinute => fun c => exMinute c d
  | .inSecond => fun c => exSecond c d

/-- The operator text each method renders between lhs and operand. -/
def cmp1Sign : Cmp1 → String
  | .equal => " = "
  | .lessThan => " < "
  | .lessThanOrEqual => " <= "
  | .greaterThan => " > "
  | .greaterThanOrEqual => " >= "
  | .like => " LIKE "
  | .inDate => " = "
  | .inTime => " = "
  | .inYear => " = "
  | .inMonth => " = "
  | .inDay => " = "
  | .inHour => " = "
  | .inMinute => " = "
  | .inSecond => " = "

/-- The scalar validity check of each method. -/
def cmp1Valid : Cmp1 → Val → Bool
  | .equal => scalarOk
  | .lessThan => scalarOk
  | .lessThanOrEqual => scalarOk
  | .greaterThan => scalarOk
  | .greaterThanOrEqual => scalarOk
  | .like => isFullStrVal
  | .inDate => isFullStrVal
  | .inTime => isFullStrVal
  | .inYear => fun v => match v with | .num n => decide (0 < n) | .str _ => false
  | .inMonth => fun v => match v with | .num n => decide (1 ≤ n ∧ n ≤ 12) | .str _ => false
  | .inDay => fun v => match v with | .num n => decide (1 ≤ n ∧ n ≤ 31) | .str _ => false
  | .inHour => fun v => match v with | .num n => decide (0 ≤ n ∧ n ≤ 23) | .str _ => false
  | .inMinute => fun v => match v with | .num n => decide (0 ≤ n ∧ n ≤ 59) | .str _ => false
  | .inSecond => fun v => match v with | .num n => decide (0 ≤ n ∧ n ≤ 59) | .str _ => false

theorem cmp1Apply_eq (d : Driver) (ctx : CondCtx) (m : Cmp1) (v : Operand) :
    cmp1Apply d ctx m v = condPush ctx (cmp1Lhs d m) (cmp1Sign m) v (cmp1Valid m) := by
  cases m <;> rfl

/-- C6: for every single-operand comparison method (equal through
greaterThanOrEqual, like, inDate through inSecond), and for between and in: a
Reference Marker operand splices its raw column text in place of the
placeholder and leaves the Value Sink untouched, while a plain scalar renders
a placeholder and appends exactly that value to the sink, in order. -/
theorem c6_reference_marker (d : Driver) (ctx : CondCtx) (column : String)
    (hcol : ctx.cond.column = some column) :
    (∀ (m : Cmp1) (rc : String) (ctx2 : CondCtx),
       cmp1Apply d ctx m (.ref rc) = .ok ctx2 →
       ctx2.sink = ctx.sink ∧
       ctx2.cond.stack = ctx.cond.stack ++
         [negStr ctx.cond.negate ++ cmp1Lhs d m column ++ cmp1Sign m ++ rc]) ∧
    (∀ (m : Cmp1) (v : Val) (ctx2 : CondCtx),
       cmp1Apply d ctx m (.val v) = .ok ctx2 →
       ctx2.sink = ctx.sink ++ [v.toSql] ∧
       ctx2.cond.stack = ctx.cond.stack ++
         [negStr ctx.cond.negate ++ cmp1Lhs d m column ++ cmp1Sign m ++ "?"]) ∧
    (∀ (a b : Operand) (ctx2 : CondCtx),
       condBetween ctx a b = .ok ctx2 →
       ctx2.sink = ctx.sink ++ opSink a ++ opSink b ∧
       ctx2.cond.stack = ctx.cond.stack ++
         [negStr ctx.cond.negate ++ column ++ " BETWEEN " ++
           opHolder a ++ " AND " ++ opHolder b]) ∧
    (∀ (vs : List Operand) (ctx2 : CondCtx),
       condIn ctx vs = .ok ctx2 →
       ctx2.sink = ctx.sink ++ (vs.map opSink).flatten ∧
       ctx2.cond.stack = ctx.cond.stack ++
         [negStr ctx.cond.negate ++ column ++ " IN (" ++
           joinSep ", " (vs.map opHolder) ++ ")"]) := by
  refine ⟨?_, ?_, ?_, ?_⟩
  · intro m rc ctx2 h
    rw [cmp1Apply_eq] at h
    obtain ⟨col2, hc2, -, -, -, -, hsink, -, hstack⟩ := condPush_ok h
    have : col2 = column := by
      rw [hcol] at hc2
      exact (Option.some.inj hc2).symm
    subst this
    refine ⟨by simpa [opSink] using hsink, ?_⟩
    rw [hstack]
    rfl
  · intro m v ctx2 h
    rw [cmp1Apply_eq] at h
    obtain ⟨col2, hc2, -, -, -, -, hsink, -, hstack⟩ := condPush_ok h
    have : col2 = column := by
      rw [hcol] at hc2
      exact (Option.some.inj hc2).symm
    subst this
    refine ⟨by simpa [opSink] using hsink, ?_⟩
    rw [hstack]
    rfl
  · intro a b ctx2 h
    obtain ⟨col2, hc2, -, -, -, hsink, hstack⟩ := condBetween_ok h
    have : col2 = column := by
      rw [hcol] at hc2
      exact (Option.some.inj hc2).symm
    subst this
    exact ⟨hsink, hstack⟩
  · intro vs ctx2 h
    obtain ⟨col2, hc2, -, -, -, hsink, hstack⟩ := condIn_ok h
    have : col2 = column := by
      rw [hcol] at hc2
      exact (Option.some.inj hc2).symm
    subst this
    exact ⟨hsink, hstack⟩

/-- Condition context with active column age, used by the C6 witness. -/
def c6ctx : CondCtx := { cond := { column := some "age" }, sink := [.num 9] }

/-- The result of comparing age against the Reference Marker ref('height'). -/
def c6out : CondCtx :=
  { cond := { stack := ["age = height"], column := some "age" }, sink := [.num 9] }

/-- C6 witness: equal(ref('height')) on a concrete context splices the raw
column text and leaves the sink untouched. -/
theorem c6_witness :
    c6out.sink = c6ctx.sink ∧
    c6out.cond.stack = c6ctx.cond.stack ++
      [negStr c6ctx.cond.negate ++ cmp1Lhs .mysql .equal "age" ++
        cmp1Sign .equal ++ "height"] :=
  (c6_reference_marker .mysql c6ctx "age" rfl).1 .equal "height" c6out (by decide)

/-- The terminal comparison calls: every condition-producing method except
col/not/and/or/open/close/paren/raw. -/
def terminalCOp : COp → Bool
  | .ccol _ => false
  | .cnot => false
  | .cand => false
  | .cor => false
  | .copen => false
  | .cclose => false
  | .cparen => false
  | .craw _ _ => false
  | _ => true

theorem condPush_negation {ctx ctx2 : CondCtx} {lhs : String → String}
    {sign : String} {value : Operand} {valid : Val → Bool}
    (h : condPush ctx lhs sign value valid = .ok ctx2) :
    ctx2.cond.negate = false ∧
    (ctx.cond.negate = true →
      ∃ rest, ctx2.cond.stack = ctx.cond.stack ++ ["NOT " ++ rest]) := by
  obtain ⟨column, -, -, -, -, hneg, -, -, hstack⟩ := condPush_ok h
  refine ⟨hneg, ?_⟩
  intro ht
  refine ⟨lhs column ++ sign ++ opHolder value, ?_⟩
  rw [hstack, ht]
  simp [negStr, String.append_assoc]

/-- C7: the negation flag set by not() is consumed by exactly the next
terminal comparison call, which prefixes its fragment with 'NOT '; the
non-terminal methods (col, raw, and, or, open, close, paren) neither consume
nor apply it, and after every successful terminal comparison the flag is
false. -/
theorem c7_negation_flag (d : Driver) (ctx ctx2 : CondCtx) (op : COp)
    (h : cstep d ctx op = .ok ctx2) :
    (terminalCOp op = true →
      ctx2.cond.negate = false ∧
      (ctx.cond.negate = true →
        ∃ rest, ctx2.cond.stack = ctx.cond.stack ++ ["NOT " ++ rest])) ∧
    (op = .cnot → ctx2.cond.negate = true) ∧
    (terminalCOp op = false → op ≠ .cnot → ctx2.cond.negate = ctx.cond.negate) := by
  cases op with
  | ccol n =>
    refine ⟨by intro ht; simp [terminalCOp] at ht, by intro ht; simp [terminalCOp] at ht, ?_⟩
    intro _ _
    simp only [cstep] at h
    split at h
    · rename_i c hc
      obtain ⟨-, hc2⟩ := condColS_ok hc
      injection h with h
      subst h
      rw [hc2]
    · exact absurd h (by simp)
  | cnot =>
    simp only [cstep] at h
    injection h with h
    subst h
    exact ⟨by intro ht; simp [terminalCOp] at ht, fun _ => rfl, fun _ ht => absurd rfl ht⟩
  | cand =>
    simp only [cstep] at h
    injection h with h
    subst h
    exact ⟨by intro ht; simp [terminalCOp] at ht, by intro ht; simp [terminalCOp] at ht, fun _ _ => rfl⟩
  | cor =>
    simp only [cstep] at h
    injection h with h
    subst h
    exact ⟨by intro ht; simp [terminalCOp] at ht, by intro ht; simp [terminalCOp] at ht, fun _ _ => rfl⟩
  | copen =>
    simp only [cstep] at h
    injection h with h
    subst h
    exact ⟨by intro ht; simp [terminalCOp] at ht, by intro ht; simp [terminalCOp] at ht, fun _ _ => rfl⟩
  | cclose =>
    simp only [cstep] at h
    injection h with h
    subst h
    exact ⟨by intro ht; simp [terminalCOp] at ht, by intro ht; simp [terminalCOp] at ht, fun _ _ => rfl⟩
  | cparen =>
    simp only [cstep, condParenS] at h
    refine ⟨by intro ht; simp [terminalCOp] at ht, by intro ht; simp [terminalCOp] at ht, ?_⟩
    intro _ _
    split at h <;>
      · injection h with h
        subst h
        rfl
  | craw text vals =>
    obtain ⟨-, -, hneg, -, -⟩ := condRaw_ok h
    exact ⟨by intro ht; simp [terminalCOp] at ht, by intro ht; simp [terminalCOp] at ht, fun _ _ => hneg⟩
  | cisNull =>
    obtain ⟨column, -, -, -, hneg, -, hstack⟩ := condIsNull_ok h
    refine ⟨?_, by intro ht; simp [terminalCOp] at ht, by intro ht; simp [terminalCOp] at ht⟩
    intro _
    refine ⟨hneg, ?_⟩
    intro ht
    refine ⟨column ++ " IS NULL", ?_⟩
    rw [hstack, ht]
    simp [negStr, String.append_assoc]
  | cbetween a b =>
    obtain ⟨column, -, -, -, hneg, -, hstack⟩ := condBetween_ok h
    refine ⟨?_, by intro ht; simp [terminalCOp] at ht, by intro ht; simp [terminalCOp] at ht⟩
    intro _
    refine ⟨hneg, ?_⟩
    intro ht
    refine ⟨column ++ " BETWEEN " ++ opHolder a ++ " AND " ++ opHolder b, ?_⟩
    rw [hstack, ht]
    simp [negStr, String.append_assoc]
  | cin vs =>
    obtain ⟨column, -, -, -, hneg, -, hstack⟩ := condIn_ok h
    refine ⟨?_, by intro ht; simp [terminalCOp] at ht, by intro ht; simp [terminalCOp] at ht⟩
    intro _
    refine ⟨hneg, ?_⟩
    intro ht
    refine ⟨column ++ " IN (" ++ joinSep ", " (vs.map opHolder) ++ ")", ?_⟩
    rw [hstack, ht]
    simp [negStr, String.append_assoc]
  | cequal v =>
    exact ⟨fun _ => condPush_negation h, by intro ht; simp [terminalCOp] at ht, by intro ht; simp [terminalCOp] at ht⟩
  | clessThan v =>
    exact ⟨fun _ => condPush_negation h, by intro ht; simp [terminalCOp] at ht, by intro ht; simp [terminalCOp] at ht⟩
  | clessThanOrEqual v =>
    exact ⟨fun _ => condPush_negation h, by intro ht; simp [terminalCOp] at ht, by intro ht; simp [terminalCOp] at ht⟩
  | cgreaterThan v =>
    exact ⟨fun _ => condPush_negation h, by intro ht; simp [terminalCOp] at ht, by intro ht; simp [terminalCOp] at ht⟩
  | cgreaterThanOrEqual v =>
    exact ⟨fun _ => condPush_negation h, by intro ht; simp [terminalCOp] at ht, by intro ht; simp [terminalCOp] at ht⟩
  | clike v =>
    exact ⟨fun _ => condPush_negation h, by intro ht; simp [terminalCOp] at ht, by intro ht; simp [terminalCOp] at ht⟩
  | cinDate v =>
    exact ⟨fun _ => condPush_negation h, by intro ht; simp [terminalCOp] at ht, by intro ht; simp [terminalCOp] at ht⟩
  | cinTime v =>
    exact ⟨fun _ => condPush_negation h, by intro ht; simp [terminalCOp] at ht, by intro ht; simp [terminalCOp] at ht⟩
  | cinYear v =>
    exact ⟨fun _ => condPush_negation h, by intro ht; simp [terminalCOp] at ht, by intro ht; simp [terminalCOp] at ht⟩
  | cinMonth v =>
    exact ⟨fun _ => condPush_negation h, by intro ht; simp [terminalCOp] at ht, by intro ht; simp [terminalCOp] at ht⟩
  | cinDay v =>
    exact ⟨fun _ => condPush_negation h, by intro ht; simp [terminalCOp] at ht, by intro ht; simp [terminalCOp] at ht⟩
  | cinHour v =>
    exact ⟨fun _ => condPush_negation h, by intro ht; simp [terminalCOp] at ht, by intro ht; simp [terminalCOp] at ht⟩
  | cinMinute v =>
    exact ⟨fun _ => condPush_negation h, by intro ht; simp [terminalCOp] at ht, by intro ht; simp [terminalCOp] at ht⟩
  | cinSecond v =>
    exact ⟨fun _ => condPush_negation h, by intro ht; simp [terminalCOp] at ht, by intro ht; simp [terminalCOp] at ht⟩

/-- Negated context for the C7 witness: not() has been called with the
active column age. -/
def c7ctx : CondCtx := { cond := { negate := true, column := some "age" }, sink := [] }

/-- Result of equal(18) on the negated context: the fragment gets the NOT
prefix and the flag is consumed. -/
def c7out : CondCtx :=
  { cond := { stack := ["NOT age = ?"], column := some "age" }, sink := [.num 18] }

/-- C7 witness: the negation theorem applied to a concrete terminal
comparison on a negated context. -/
theorem c7_witness :
    (terminalCOp (.cequal (.val (.num 18))) = true →
      c7out.cond.negate = false ∧
      (c7ctx.cond.negate = true →
        ∃ rest, c7out.cond.stack = c7ctx.cond.stack ++ ["NOT " ++ rest])) ∧
    (COp.cequal (.val (.num 18)) = COp.cnot → c7out.cond.negate = true) ∧
    (terminalCOp (.cequal (.val (.num 18))) = false →
      COp.cequal (.val (.num 18)) ≠ COp.cnot →
      c7out.cond.negate = c7ctx.cond.negate) :=
  c7_negation_flag .mysql c7ctx c7out (.cequal (.val (.num 18))) (by decide)

theorem normalizePage_pos (page : Option Int) : 1 ≤ normalizePage page := by
  match page with
  | none => simp [normalizePage]
  | some p =>
    simp only [normalizePage]
    split <;> omega

theorem normalizeItems_pos (items : Option Int) : 1 ≤ normalizeItems items := by
  match items with
  | none => simp [normalizeItems]
  | some i =>
    simp only [normalizeItems]
    split <;> omega

theorem ceil_le_mul (total i : Nat) (hi : 1 ≤ i) :
    total ≤ ((total + i - 1) / i) * i := by
  match total with
  | 0 => omega
  | Nat.succ t =>
    have h1 : t + 1 + i - 1 = t + i := by omega
    rw [h1, Nat.add_div_right t hi]
    have h2 : t / i < t / i + 1 := Nat.lt_succ_self _
    have h3 : t < (t / i + 1) * i := (Nat.div_lt_iff_lt_mul hi).mp h2
    omega

theorem ceil_pred_lt (total i : Nat) (hi : 1 ≤ i) (h : 0 < (total + i - 1) / i) :
    ((total + i - 1) / i - 1) * i < total := by
  match total with
  | 0 =>
    have h1 : (0 + i - 1) / i = 0 := Nat.div_eq_of_lt (by omega)
    rw [h1] at h
    omega
  | Nat.succ t =>
    have h1 : t + 1 + i - 1 = t + i := by omega
    rw [h1, Nat.add_div_right t hi, Nat.add_sub_cancel]
    have h3 : t / i * i ≤ t := Nat.div_mul_le_self t i
    omega

/-- C9 (spec-modelled: Select.ts is not under src/): paginate normalizes page
to 1 when below 1 or non-integer and items to 10 when below 1, non-integer or
absent; the read offset is (page-1)*items; the total page count is
ceil(total/items) — characterized as the least multiple bound —; prev is
omitted exactly on page 1 and next exactly when no page beyond the current
one exists; and 55 items at 10 per page give 6 pages with page 1 having no
prev and next 2. -/
theorem c9_paginate (page items : Option Int) (total : Nat) :
    1 ≤ (paginate page items total).current ∧
    1 ≤ (paginate page items total).items ∧
    (paginate page items total).offset
      = ((paginate page items total).current - 1) * (paginate page items total).items ∧
    (paginate page items total).totalItems
      ≤ (paginate page items total).totalPages * (paginate page items total).items ∧
    (0 < (paginate page items total).totalPages →
      ((paginate page items total).totalPages - 1) * (paginate page items total).items
        < (paginate page items total).totalItems) ∧
    ((paginate page items total).prev = none ↔
      (paginate page items total).current = 1) ∧
    ((paginate page items total).next = none ↔
      (paginate page items total).totalPages ≤ (paginate page items total).current) ∧
    (paginate none items total).current = 1 ∧
    (paginate page none total).items = 10 ∧
    (∀ p : Int, p < 1 → (paginate (some p) items total).current = 1) ∧
    (∀ i : Int, i < 1 → (paginate page (some i) total).items = 10) ∧
    (paginate (some 1) (some 10) 55).totalPages = 6 ∧
    (paginate (some 1) (some 10) 55).prev = none ∧
    (paginate (some 1) (some 10) 55).next = some 2 := by
  have hp := normalizePage_pos page
  have hi := normalizeItems_pos items
  refine ⟨hp, hi, rfl, ?_, ?_, ?_, ?_, rfl, ?_, ?_, ?_, by decide, by decide, by decide⟩
  · exact ceil_le_mul total (normalizeItems items) hi
  · exact fun h => ceil_pred_lt total (normalizeItems items) hi h
  · show (if normalizePage page = 1 then none
        else some (normalizePage page - 1)) = none ↔ _
    split
    · rename_i h
      simp [paginate, h]
    · rename_i h
      simp [paginate, h]
  · show (if normalizePage page < (total + normalizeItems items - 1) / normalizeItems items
        then some (normalizePage page + 1) else none) = none ↔ _
    split
    · rename_i h
      simp only [paginate]
      simp
      omega
    · rename_i h
      simp only [paginate]
      simp
      omega
  · simp [paginate, normalizeItems]
  · intro p hpp
    simp [paginate, normalizePage, hpp]
  · intro i hii
    simp [paginate, normalizeItems, hii]

theorem deleteExec_ok {s : DeleteS} {q : String} {vals : List SqlVal}
    (hq : s.query = none) (h : deleteExec s = .ok (q, vals)) :
    deleteBuild s = .ok q ∧ vals = s.values := by
  unfold deleteExec at h
  rw [hq] at h
  split at h
  · rename_i q2 hq2
    exact absurd hq2 (by simp)
  · split at h
    · rename_i q2 hq2
      injection h with h
      injection h with h1 h2
      subst h1
      subst h2
      exact ⟨hq2, rfl⟩
    · exact absurd h (by simp)

theorem updateExec_ok {s : UpdateS} {q : String} {vals : List SqlVal}
    (hq : s.query = none) (h : updateExec s = .ok (q, vals)) :
    ∃ s2, updateBuild s = .ok (q, s2) ∧ vals = s2.values := by
  unfold updateExec at h
  rw [hq] at h
  split at h
  · rename_i q2 hq2
    exact absurd hq2 (by simp)
  · split at h
    · rename_i q2 s2 hq2
      injection h with h
      injection h with h1 h2
      subst h1
      subst h2
      exact ⟨s2, hq2, rfl⟩
    · exact absurd h (by simp)

theorem notNull_ne_null {v : SqlVal} (h : SqlVal.notNull v = true) :
    v ≠ SqlVal.null := by
  cases v with
  | null => cases h
  | str s => exact fun hc => by cases hc
  | num n => exact fun hc => by cases hc

/-- The Delete state after from('users'). -/
def c1d1 : DeleteS := { table := some "users" }

/-- The Delete state after a raw fragment with a bound value but no
placeholder: `where((col, con) => con.raw('active = 1', 5))`. -/
def c1d2 : DeleteS :=
  { table := some "users", condition := some { stack := ["active = 1"] },
    values := [.num 5] }

/-- C1, counterexample: raw() is a public clause-setting method; passing it a
value together with a fragment that contains no placeholder — allowed by the
claim, which only excludes raw fragments containing a placeholder — yields a
DELETE whose rendered text has zero placeholders while exec() hands the
connection a one-element Value Sink, so the claimed count equality fails. -/
theorem c1_counterexample :
    deleteFrom deleteInit "users" = .ok c1d1 ∧
    deleteWhere .mysql c1d1 [.craw "active = 1" [.num 5]] = .ok c1d2 ∧
    countQ "active = 1" = 0 ∧
    deleteExec c1d2 = .ok ("DELETE FROM users WHERE active = 1;", [.num 5]) ∧
    countQ "DELETE FROM users WHERE active = 1;" = 0 ∧
    ([SqlVal.num 5] : List SqlVal).length = 1 := by
  refine ⟨by decide, by decide, by decide, by decide, by decide, by decide⟩

/-- C1 (amended): when every identifier spliced into the SQL is free of
placeholder characters, raw fragments carry no placeholder AND bind no
values, and (for Update) set() precedes all condition-building calls, the
placeholder count of the built SQL equals the length of the flattened Value
Sink that exec() hands the connection; for Insert, each null row cell renders
as the literal NULL with no sink entry and each non-null cell as a
placeholder with its one sink entry, in row order. -/
theorem c1_amended_placeholder_sink_alignment :
    (∀ (s : InsertS) (q : String) (s2 : InsertS),
       s.query = none →
       (∀ t, s.table = some t → countQ t = 0) →
       (∀ cs, s.columns = some cs → ∀ c ∈ cs, countQ c = 0) →
       (∀ rs, s.returnings = some rs → ∀ c ∈ rs, countQ c = 0) →
       insertBuild s = .ok (q, s2) →
       countQ q = s2.values.flatten.length ∧
       s2.values = s.values.map (fun row => row.filter SqlVal.notNull) ∧
       insertExec s = .ok (q, s2.values.flatten)) ∧
    (∀ (d : Driver) (t : String) (ops : List COp) (s1 s2 : DeleteS)
       (q : String) (vals : List SqlVal),
       countQ t = 0 → ops.all cleanOp = true →
       deleteFrom deleteInit t = .ok s1 →
       deleteWhere d s1 ops = .ok s2 →
       deleteExec s2 = .ok (q, vals) →
       countQ q = vals.length) ∧
    (∀ (d : Driver) (t : String) (row : List (String × SqlVal)) (ops : List COp)
       (s1 s2 : UpdateS) (q : String) (vals : List SqlVal),
       countQ t = 0 → (∀ p ∈ row, countQ p.1 = 0) → ops.all cleanOp = true →
       updateTable updateInit t = .ok s1 →
       updateWhere d (updateSet s1 row) ops = .ok s2 →
       updateExec s2 = .ok (q, vals) →
       countQ q = vals.length ∧ vals = s2.values.filter SqlVal.notNull) := by
  refine ⟨?_, ?_, ?_⟩
  · intro s q s2 hq htab hcols hret h
    obtain ⟨hcount, hvalues⟩ := insertBuild_count htab hcols hret h
    refine ⟨hcount, by rw [insertBuild_ok h], ?_⟩
    unfold insertExec
    rw [hq, h]
  · intro d t ops s1 s2 q vals hqt hops hfrom hwhere hexec
    obtain ⟨-, hs1⟩ := deleteFrom_ok hfrom
    subst hs1
    obtain ⟨ctx, hctx, hs2⟩ := deleteWhere_ok hwhere
    have hctx2 : crun d { cond := {}, sink := [] } ops = .ok ctx := hctx
    obtain ⟨hdelta, -⟩ := crun_delta hops (by trivial) hctx2
    have hstackQ : countQ (joinAll ctx.cond.stack) = ctx.sink.length := by
      have h0 : countQ (joinAll ([] : List String)) = 0 := rfl
      simpa [h0] using hdelta
    have hq2 : s2.query = none := by rw [hs2]; rfl
    obtain ⟨hbuild, hvals⟩ := deleteExec_ok hq2 hexec
    obtain ⟨table, cond, ct, htable, hcond, hct, hqshape⟩ := deleteBuild_ok hbuild
    have htt : table = t := by
      rw [hs2] at htable
      exact (Option.some.inj htable).symm
    subst htt
    have hcc : cond = ctx.cond := by
      rw [hs2] at hcond
      exact (Option.some.inj hcond).symm
    subst hcc
    have hcttext : ct = condText ctx.cond := buildCond_ok_text hct
    have hctQ : countQ ct = ctx.sink.length := by
      rw [hcttext, condText, countQ_jsTrim, hstackQ]
    have hvals2 : vals = ctx.sink := by
      rw [hvals, hs2]
    rw [hqshape, hvals2]
    simp only [countQ_append]
    have e1 : countQ "DELETE FROM " = 0 := rfl
    have e2 : countQ " WHERE " = 0 := rfl
    have e3 : countQ ";" = 0 := rfl
    rw [e1, e2, e3, hqt, hctQ]
    omega
  · intro d t row ops s1 s2 q vals hqt hrow hops htable hwhere hexec
    obtain ⟨-, hs1⟩ := updateTable_ok htable
    subst hs1
    obtain ⟨ctx, hctx, hs2⟩ := updateWhere_ok hwhere
    have hctx2 : crun d { cond := {}, sink := row.map Prod.snd } ops = .ok ctx := hctx
    obtain ⟨hdelta, -⟩ := crun_delta hops (by trivial) hctx2
    have hstackQ : countQ (joinAll ctx.cond.stack) + (row.map Prod.snd).length
        = ctx.sink.length := by
      have h0 : countQ (joinAll ([] : List String)) = 0 := rfl
      simpa [h0] using hdelta
    obtain ⟨add, hadd, haddnn⟩ := crun_sink hctx2
    have haddsink : ctx.sink = row.map Prod.snd ++ add := hadd
    have hq2 : s2.query = none := by rw [hs2]; rfl
    obtain ⟨s3, hbuild, hvals⟩ := updateExec_ok hq2 hexec
    obtain ⟨hs3, table, cond, ct, htab2, hcond, hct, hqshape⟩ := updateBuild_ok hbuild
    have htt : table = t := by
      rw [hs2] at htab2
      exact (Option.some.inj htab2).symm
    subst htt
    have hcc : cond = ctx.cond := by
      rw [hs2] at hcond
      exact (Option.some.inj hcond).symm
    subst hcc
    have hcttext : ct = condText ctx.cond := buildCond_ok_text hct
    have hctQ : countQ ct = add.length := by
      rw [hcttext, condText, countQ_jsTrim]
      have : ctx.sink.length = (row.map Prod.snd).length + add.length := by
        rw [haddsink, List.length_append]
      omega
    have hcols2 : s2.columns = row.map Prod.fst := by rw [hs2]; rfl
    have hvals2 : s2.values = row.map Prod.snd ++ add := by rw [hs2]; exact haddsink
    have hkeysclean : ∀ c ∈ row.map Prod.fst, countQ c = 0 := by
      intro c hc
      obtain ⟨p, hp, hpc⟩ := List.mem_map.mp hc
      rw [← hpc]
      exact hrow p hp
    have hsetQ : countQ (joinSep ", " (setFragments s2.columns s2.values))
        = ((row.map Prod.snd).filter SqlVal.notNull).length := by
      rw [hcols2, hvals2, countQ_joinSep_comma]
      exact setFragments_count (row.map Prod.fst) (row.map Prod.snd) add
        (by simp) hkeysclean
    have haddid : add.filter SqlVal.notNull = add :=
      filter_notNull_of_no_null (fun v hv => notNull_ne_null (haddnn v hv))
    have hvals3 : vals = s2.values.filter SqlVal.notNull := by
      rw [hvals, hs3]
    refine ⟨?_, hvals3⟩
    rw [hqshape]
    simp only [countQ_append]
    have e1 : countQ "UPDATE " = 0 := rfl
    have e2 : countQ " SET " = 0 := rfl
    have e3 : countQ " WHERE " = 0 := rfl
    have e4 : countQ ";" = 0 := rfl
    rw [e1, e2, e3, e4, hqt, hctQ, hsetQ]
    rw [hvals3, hvals2, List.filter_append, haddid, List.length_append]
    omega

/-- A concrete clean Insert state for the C1 witness. -/
def c1w : InsertS :=
  { table := some "users", columns := some ["email", "password"],
    values := [[.str "a@b.com", .null], [.null, .str "123"]] }

/-- The same state after build() has filtered the nulls. -/
def c1w2 : InsertS :=
  { table := some "users", columns := some ["email", "password"],
    values := [[.str "a@b.com"], [.str "123"]] }

/-- C1 witness: the amended alignment theorem applied to a concrete Insert
with null cells — two placeholders, two flattened sink entries. -/
theorem c1_witness :
    countQ "INSERT INTO users (email, password) VALUES (?, NULL), (NULL, ?);"
      = c1w2.values.flatten.length ∧
    c1w2.values = c1w.values.map (fun row => row.filter SqlVal.notNull) ∧
    insertExec c1w
      = .ok ("INSERT INTO users (email, password) VALUES (?, NULL), (NULL, ?);",
             c1w2.values.flatten) :=
  c1_amended_placeholder_sink_alignment.1 c1w
    "INSERT INTO users (email, password) VALUES (?, NULL), (NULL, ?);" c1w2
    rfl (by intro t ht; cases ht; rfl)
    (by intro cs hcs; cases hcs; decide)
    (by intro rs hrs; cases hrs)
    (by decide)

/-- Condition state assembled by col('age').greaterThan(18).and()
.col('status').equal('active'), for the C2 witness. -/
def c2wState : ConditionS :=
  { stack := ["age > ?", " AND ", "status = ?"], column := some "status" }

/-- C2 witness: the success side of the build iff applied to a concrete
well-formed condition. -/
theorem c2_witness : buildCond c2wState = .ok (condText c2wState) :=
  (c2_amended_build_iff c2wState).1.mpr (by decide)

/-- C8 witness: the amended fragment table applied at a concrete column. -/
theorem c8_witness :
    exTime "created_at" .mysql = "TIME(" ++ "created_at" ++ ")" :=
  (c8_amended_dialect_fragments "created_at").2.1

/-- C9 witness: the paginate theorem applied at page 3, 10 items per page,
55 total items. -/
theorem c9_witness :
    (paginate (some 3) (some 10) 55).offset
      = ((paginate (some 3) (some 10) 55).current - 1)
        * (paginate (some 3) (some 10) 55).items :=
  (c9_paginate (some 3) (some 10) 55).2.2.1

end MegaOrmBuilder
